import Mathlib

/-!
Verification of the EdgeLite engagement-signal pipeline (`model1/`).

The Python source is shallowly embedded as follows:

* Python floats are modelled as exact rationals (`ℚ`); the claims under
  study are about exact threshold / counter / windowing logic, not about
  IEEE-754 rounding.
* `collections.deque(maxlen = n)` is modelled by `pushCap n`: append on the
  right, evict from the left when the capacity is exceeded.
* `np.mean` is `meanQ` (sum divided by length), `np.var` is `varQ`
  (population variance, mean of squared deviations).
* Python's `round(x, 1)` is `round1` (round `10 * x` to an integer and
  divide by 10).  No claim depends on the tie-breaking rule at exact
  `.05` boundaries.
* Each detector class becomes a structure holding exactly the fields the
  Python `__init__` creates, and its `update` method becomes a pure
  function from the old state (plus the per-frame scalar inputs the
  geometry kernel produces from the landmark array) to the new state.
* The geometry kernel (`landmarks.py`), which involves `sqrt`, is embedded
  over `ℝ` further below.
-/

namespace EdgeLite

/-- deque with `maxlen = cap`: append `x` on the right, drop from the left
when over capacity. -/
def pushCap {α : Type} (cap : ℕ) (l : List α) (x : α) : List α :=
  let l' := l ++ [x]
  if cap < l'.length then l'.drop (l'.length - cap) else l'

/-- np.mean over a list of rationals (sum / length; 0 on the empty list,
which the source never hits because every mean follows an append). -/
def meanQ (l : List ℚ) : ℚ := l.sum / l.length

/-- np.var over a list of rationals: mean of squared deviations from the
mean (population variance). -/
def varQ (l : List ℚ) : ℚ := meanQ (l.map (fun x => (x - meanQ l) ^ 2))

/-- Python `round(x, 1)`: round to one decimal place. -/
def round1 (x : ℚ) : ℚ := (round (10 * x) : ℤ) / 10

/-- np.sign restricted to rationals. -/
def signQ (x : ℚ) : ℤ := if x < 0 then -1 else if 0 < x then 1 else 0

/-- Consecutive differences, np.diff. -/
def diffsQ : List ℚ → List ℚ
  | a :: b :: t => (b - a) :: diffsQ (b :: t)
  | _ => []

/-- Number of adjacent positions where the sign list changes value. -/
def countFlips : List ℤ → ℕ
  | a :: b :: t => (if a ≠ b then 1 else 0) + countFlips (b :: t)
  | _ => 0

/-! ## Configuration constants (`config.py`) -/

def TARGET_FPS : ℕ := 30
def SMOOTHING_WINDOW : ℕ := 10
def BLINK_WINDOW : ℕ := 90
def GESTURE_WINDOW : ℕ := 45
def CONFUSION_WINDOW : ℕ := 60
def ENGAGEMENT_WINDOW : ℕ := 30
def EAR_THRESHOLD : ℚ := 0.21
def EAR_CONSEC_FRAMES : ℕ := 3
def SLEEP_EAR_THRESHOLD : ℚ := 0.18
def SLEEP_CONSEC_FRAMES : ℕ := 150
def TILT_THRESHOLD_DEG : ℚ := 15.0
def TILT_CONSEC_FRAMES : ℕ := 90
def EYE_CONTACT_NOSE_TOLERANCE : ℚ := 0.04
def BLINK_RATE_HIGH : ℚ := 25
def BLINK_RATE_LOW : ℚ := 8
def MICRO_MOVE_HIGH : ℚ := 0.003
def NOD_OSCILLATIONS : ℕ := 2
def SHAKE_OSCILLATIONS : ℕ := 2
def GESTURE_DEADZONE : ℚ := 0.008

/-- CONFUSION_WEIGHTS["blink_rate"]. -/
def W_BLINK_RATE : ℚ := 0.25
/-- CONFUSION_WEIGHTS["head_variance"]. -/
def W_HEAD_VARIANCE : ℚ := 0.30
/-- CONFUSION_WEIGHTS["gaze_reduction"]. -/
def W_GAZE_REDUCTION : ℚ := 0.25
/-- CONFUSION_WEIGHTS["micro_movement"]. -/
def W_MICRO_MOVEMENT : ℚ := 0.20

/-- ENGAGEMENT_WEIGHTS["eye_openness"]. -/
def W_EYE_OPENNESS : ℚ := 0.30
/-- ENGAGEMENT_WEIGHTS["head_stability"]. -/
def W_HEAD_STABILITY : ℚ := 0.25
/-- ENGAGEMENT_WEIGHTS["eye_contact"]. -/
def W_EYE_CONTACT : ℚ := 0.30
/-- ENGAGEMENT_WEIGHTS["confusion_penalty"]. -/
def W_CONFUSION_PENALTY : ℚ := 0.15

/-- GestureDetector._COOLDOWN. -/
def GESTURE_COOLDOWN : ℕ := 20

/-! ## EAR detector (`ear_detector.py`) -/

/-- State of `EARDetector`: exactly the fields set by `__init__`. -/
structure EARDetector where
  earHistory : List ℚ        -- deque(maxlen=SMOOTHING_WINDOW)
  blinkFrames : List ℕ       -- deque(maxlen=200) of blink frame numbers
  blinkCounter : ℕ
  sleepCounter : ℕ
  totalBlinks : ℕ
  currentFrame : ℕ
  earLeft : ℚ
  earRight : ℚ
  earAvg : ℚ
  isBlinking : Bool
  isSleeping : Bool
  blinksInWindow : ℕ
  blinksPerMinute : ℚ
  deriving DecidableEq

/-- `EARDetector.__init__` / `reset`. -/
def EARDetector.init : EARDetector :=
  { earHistory := [], blinkFrames := [], blinkCounter := 0, sleepCounter := 0,
    totalBlinks := 0, currentFrame := 0, earLeft := 0, earRight := 0,
    earAvg := 0, isBlinking := false, isSleeping := false,
    blinksInWindow := 0, blinksPerMinute := 0 }

/-- `EARDetector.update(lm_xy)`, with the two `eye_aspect_ratio` values the
source computes from the landmark array at the top of the method supplied
as the scalar inputs `earLeft` / `earRight` (the rest of the method only
reads those two scalars).  Branches of the source are rendered as one
`if` per affected field. -/
def EARDetector.update (s : EARDetector) (earLeft earRight : ℚ) : EARDetector :=
  let currentFrame := s.currentFrame + 1
  let earAvg := (earLeft + earRight) / 2
  let earHistory := pushCap SMOOTHING_WINDOW s.earHistory earAvg
  let smoothEar := meanQ earHistory
  -- step 3: blink detection (drop below threshold, count on the rise)
  let blinkCounter := if smoothEar < EAR_THRESHOLD then s.blinkCounter + 1 else 0
  let isBlinking := if smoothEar < EAR_THRESHOLD then true else false
  let firesBlink := ¬ smoothEar < EAR_THRESHOLD ∧ EAR_CONSEC_FRAMES ≤ s.blinkCounter
  let totalBlinks := if firesBlink then s.totalBlinks + 1 else s.totalBlinks
  let blinkFrames := if firesBlink then pushCap 200 s.blinkFrames currentFrame else s.blinkFrames
  -- step 4: sleep detection
  let sleepCounter := if smoothEar < SLEEP_EAR_THRESHOLD then s.sleepCounter + 1 else 0
  let isSleeping := if SLEEP_CONSEC_FRAMES ≤ sleepCounter then true else false
  -- step 5: purge old blink records, blink rate over the rolling window
  let blinkFrames := blinkFrames.dropWhile (fun (f : ℕ) => (f : ℤ) < (currentFrame : ℤ) - BLINK_WINDOW)
  let blinksInWindow := blinkFrames.length
  let windowSeconds : ℚ := (BLINK_WINDOW : ℚ) / (max TARGET_FPS 1 : ℕ)
  let blinksPerMinute := ((blinksInWindow : ℚ) / windowSeconds) * 60
  { earHistory := earHistory, blinkFrames := blinkFrames,
    blinkCounter := blinkCounter, sleepCounter := sleepCounter,
    totalBlinks := totalBlinks, currentFrame := currentFrame,
    earLeft := earLeft, earRight := earRight, earAvg := earAvg,
    isBlinking := isBlinking, isSleeping := isSleeping,
    blinksInWindow := blinksInWindow, blinksPerMinute := blinksPerMinute }

/-- `EARDetector.normalised_ear()`. -/
def EARDetector.normalisedEar (s : EARDetector) : ℚ := min (s.earAvg / 0.30) 1

/-- Run the EAR detector over a sequence of per-frame EAR averages, feeding
each value as both eyes' EAR (so the per-frame average equals the value). -/
def runEAR (s : EARDetector) (l : List ℚ) : EARDetector :=
  l.foldl (fun st v => st.update v v) s

/-! ## Head pose detector (`head_pose.py`) -/

/-- State of `HeadPoseDetector`. -/
structure HeadPoseDetector where
  angleHistory : List ℚ      -- deque(maxlen=SMOOTHING_WINDOW)
  varHistory : List ℚ        -- deque(maxlen=CONFUSION_WINDOW)
  tiltCounter : ℕ
  tiltAngleDeg : ℚ
  smoothedAngle : ℚ
  isTilted : Bool
  angleVariance : ℚ
  deriving DecidableEq

/-- `HeadPoseDetector.__init__` / `reset`. -/
def HeadPoseDetector.init : HeadPoseDetector :=
  { angleHistory := [], varHistory := [], tiltCounter := 0,
    tiltAngleDeg := 0, smoothedAngle := 0, isTilted := false, angleVariance := 0 }

/-- `HeadPoseDetector.update(lm_xy)`, with the `eye_tilt_angle` value the
source computes from the landmark array supplied as the scalar input. -/
def HeadPoseDetector.update (s : HeadPoseDetector) (angle : ℚ) : HeadPoseDetector :=
  let angleHistory := pushCap SMOOTHING_WINDOW s.angleHistory angle
  let varHistory := pushCap CONFUSION_WINDOW s.varHistory angle
  let smoothedAngle := meanQ angleHistory
  let tiltCounter := if TILT_THRESHOLD_DEG < |smoothedAngle| then s.tiltCounter + 1 else 0
  let isTilted := if TILT_CONSEC_FRAMES ≤ tiltCounter then true else false
  let rawVar := if 1 < varHistory.length then varQ varHistory else 0
  let angleVariance := min (rawVar / 50) 1
  { angleHistory := angleHistory, varHistory := varHistory,
    tiltCounter := tiltCounter, tiltAngleDeg := angle,
    smoothedAngle := smoothedAngle, isTilted := isTilted,
    angleVariance := angleVariance }

/-- `HeadPoseDetector.normalised_stability()`. -/
def HeadPoseDetector.normalisedStability (s : HeadPoseDetector) : ℚ :=
  1 - s.angleVariance

/-! ## Eye contact detector (`eye_contact.py`) -/

/-- State of `EyeContactDetector`. -/
structure EyeContactDetector where
  deviationHistory : List ℚ  -- deque(maxlen=SMOOTHING_WINDOW)
  contactHistory : List ℚ    -- deque(maxlen=ENGAGEMENT_WINDOW) of 0/1
  deviation : ℚ
  smoothedDeviation : ℚ
  eyeContact : Bool
  contactRatio : ℚ
  deriving DecidableEq

/-- `EyeContactDetector.__init__` / `reset`. -/
def EyeContactDetector.init : EyeContactDetector :=
  { deviationHistory := [], contactHistory := [], deviation := 0,
    smoothedDeviation := 0, eyeContact := true, contactRatio := 1 }

/-- `EyeContactDetector.update(lm_xy)`, with the `nose_face_deviation`
value the source computes from the landmark array supplied as the scalar
input. -/
def EyeContactDetector.update (s : EyeContactDetector) (dev : ℚ) : EyeContactDetector :=
  let deviationHistory := pushCap SMOOTHING_WINDOW s.deviationHistory |dev|
  let smoothedDeviation := meanQ deviationHistory
  let eyeContact := if smoothedDeviation ≤ EYE_CONTACT_NOSE_TOLERANCE then true else false
  let contactHistory := pushCap ENGAGEMENT_WINDOW s.contactHistory (if eyeContact then 1 else 0)
  let contactRatio := meanQ contactHistory
  { deviationHistory := deviationHistory, contactHistory := contactHistory,
    deviation := dev, smoothedDeviation := smoothedDeviation,
    eyeContact := eyeContact, contactRatio := contactRatio }

/-- `EyeContactDetector.gaze_loss_score()`. -/
def EyeContactDetector.gazeLossScore (s : EyeContactDetector) : ℚ :=
  1 - s.contactRatio

/-! ## Gesture detector (`gesture.py`) -/

/-- State of `GestureDetector`. -/
structure GestureDetector where
  xHistory : List ℚ          -- deque(maxlen=GESTURE_WINDOW)
  yHistory : List ℚ          -- deque(maxlen=GESTURE_WINDOW)
  headNod : Bool
  headShake : Bool
  nodCooldown : ℕ
  shakeCooldown : ℕ
  deriving DecidableEq

/-- `GestureDetector.__init__` / `reset`. -/
def GestureDetector.init : GestureDetector :=
  { xHistory := [], yHistory := [], headNod := false, headShake := false,
    nodCooldown := 0, shakeCooldown := 0 }

/-- The cooldown decrement at the top of `GestureDetector.update`
(`if cooldown > 0: cooldown -= 1`). -/
def decCooldown (c : ℕ) : ℕ := if 0 < c then c - 1 else c

/-- `GestureDetector._count_oscillations(history, deadzone)`: velocity
signal, deadzone filter, drop zeros, count sign changes, divide by 2. -/
def countOscillations (history : List ℚ) (deadzone : ℚ) : ℕ :=
  if history.length < 3 then 0 else
  let delta := diffsQ history
  let delta := delta.map (fun d => if |d| < deadzone then 0 else d)
  let delta := delta.filter (fun d => d ≠ 0)
  if delta.length < 2 then 0 else
  countFlips (delta.map signQ) / 2

/-- `GestureDetector.update(lm_xy)`, with the `nose_position_normalised`
pair the source computes from the landmark array supplied as the scalar
inputs `nx` / `ny`. -/
def GestureDetector.update (s : GestureDetector) (nx ny : ℚ) : GestureDetector :=
  let xHistory := pushCap GESTURE_WINDOW s.xHistory nx
  let yHistory := pushCap GESTURE_WINDOW s.yHistory ny
  let nodCooldown := decCooldown s.nodCooldown
  let shakeCooldown := decCooldown s.shakeCooldown
  let vertOsc := countOscillations yHistory GESTURE_DEADZONE
  let horizOsc := countOscillations xHistory GESTURE_DEADZONE
  let nodFires := NOD_OSCILLATIONS ≤ vertOsc ∧ nodCooldown = 0
  let shakeFires := SHAKE_OSCILLATIONS ≤ horizOsc ∧ shakeCooldown = 0
  { xHistory := xHistory, yHistory := yHistory,
    headNod := if nodFires then true else false,
    headShake := if shakeFires then true else false,
    nodCooldown := if nodFires then GESTURE_COOLDOWN else nodCooldown,
    shakeCooldown := if shakeFires then GESTURE_COOLDOWN else shakeCooldown }

/-- Run the gesture detector over a list of (nx, ny) inputs. -/
def runGesture (s : GestureDetector) (l : List (ℚ × ℚ)) : GestureDetector :=
  l.foldl (fun st p => st.update p.1 p.2) s

/-! ## Confusion scorer (`confusion.py`) -/

/-- `ConfusionScorer._blink_rate_signal`. -/
def blinkRateSignal (blinksPerMinute : ℚ) : ℚ :=
  if blinksPerMinute ≤ BLINK_RATE_LOW then 0
  else if BLINK_RATE_HIGH ≤ blinksPerMinute then 1
  else (blinksPerMinute - BLINK_RATE_LOW) / (BLINK_RATE_HIGH - BLINK_RATE_LOW)

/-- `ConfusionScorer._head_variance_signal`. -/
def headVarianceSignal (angleVariance : ℚ) : ℚ := min angleVariance 1

/-- `ConfusionScorer._gaze_loss_signal`. -/
def gazeLossSignal (gazeLoss : ℚ) : ℚ := min gazeLoss 1

/-- `ConfusionScorer._micro_movement_signal`. -/
def microMovementSignal (microVariance : ℚ) : ℚ := min microVariance 1

/-- `ConfusionScorer.compute`: a pure function of its four inputs (the
Python method also stores the result in `self.score`; the pipeline state
carries that field separately). -/
def confusionCompute (blinksPerMinute headAngleVariance gazeLoss microMovement : ℚ) : ℚ :=
  let raw :=
    W_BLINK_RATE * blinkRateSignal blinksPerMinute +
    W_HEAD_VARIANCE * headVarianceSignal headAngleVariance +
    W_GAZE_REDUCTION * gazeLossSignal gazeLoss +
    W_MICRO_MOVEMENT * microMovementSignal microMovement
  round1 (min (raw * 100) 100)

/-! ## Engagement scorer (`engagement.py`) -/

/-- State of `EngagementScorer`. -/
structure EngagementScorer where
  scoreHistory : List ℚ      -- deque(maxlen=ENGAGEMENT_WINDOW)
  score : ℚ
  rawScore : ℚ
  deriving DecidableEq

/-- `EngagementScorer.__init__` / `reset`. -/
def EngagementScorer.init : EngagementScorer :=
  { scoreHistory := [], score := 50, rawScore := 50 }

/-- `EngagementScorer.compute`: weighted positives minus confusion
penalty, clamp to [0,1], scale to [0,100] at one decimal, push into the
rolling buffer and publish the rounded buffer mean.  The returned state's
`score` field is the method's return value. -/
def EngagementScorer.compute (s : EngagementScorer)
    (earNormalised headStability contactRatio confusionScore : ℚ) : EngagementScorer :=
  let confusionNorm := confusionScore / 100
  let positive :=
    W_EYE_OPENNESS * earNormalised +
    W_HEAD_STABILITY * headStability +
    W_EYE_CONTACT * contactRatio
  let penalty := W_CONFUSION_PENALTY * confusionNorm
  let raw := max 0 (min (positive - penalty) 1)
  let rawScore := round1 (raw * 100)
  let scoreHistory := pushCap ENGAGEMENT_WINDOW s.scoreHistory rawScore
  let score := round1 (meanQ scoreHistory)
  { scoreHistory := scoreHistory, score := score, rawScore := rawScore }

/-- Iterate `EngagementScorer.compute` with one fixed input combination. -/
def runEngagement (s : EngagementScorer) (o st c conf : ℚ) : ℕ → EngagementScorer
  | 0 => s
  | k + 1 => (runEngagement s o st c conf k).compute o st c conf

/-! ## Pipeline orchestrator (`pipeline.py`) -/

/-- The per-frame scalar outputs of the geometry kernel for one detected
face: the values `eye_aspect_ratio` (left / right eye), `eye_tilt_angle`,
`nose_face_deviation` and `nose_position_normalised` produce from the
landmark array.  Each detector's `update` consumes exactly these. -/
structure FaceData where
  earLeft : ℚ
  earRight : ℚ
  angle : ℚ
  deviation : ℚ
  noseX : ℚ
  noseY : ℚ
  deriving DecidableEq

/-- The `EngagementResult` dataclass. -/
structure EngagementResult where
  frameNumber : ℕ
  faceDetected : Bool
  fps : ℚ
  inferenceMs : ℚ
  earLeft : ℚ
  earRight : ℚ
  earAvg : ℚ
  isBlinking : Bool
  isSleeping : Bool
  blinkCount : ℕ
  blinksPerMinute : ℚ
  tiltAngleDeg : ℚ
  isTilted : Bool
  eyeContact : Bool
  contactRatio : ℚ
  confusionScore : ℚ
  engagementScore : ℚ
  headNod : Bool
  headShake : Bool
  deriving DecidableEq

/-- `EngagementResult(frame_number=n)`: the dataclass construction
defaults with the frame number filled in. -/
def EngagementResult.mkDefault (n : ℕ) : EngagementResult :=
  { frameNumber := n, faceDetected := false, fps := 0, inferenceMs := 0,
    earLeft := 0, earRight := 0, earAvg := 0, isBlinking := false,
    isSleeping := false, blinkCount := 0, blinksPerMinute := 0,
    tiltAngleDeg := 0, isTilted := false, eyeContact := true,
    contactRatio := 1, confusionScore := 0, engagementScore := 50,
    headNod := false, headShake := false }

/-- Mutable state owned by `EngagementPipeline`: the detector and scorer
instances, the nose-position histories for micro-movement, the FPS frame
time buffer and the frame counter.  (`ConfusionScorer`'s only attribute is
`self.score`, carried here as `confusionScore`.) -/
structure PipelineState where
  ear : EARDetector
  head : HeadPoseDetector
  gaze : EyeContactDetector
  gesture : GestureDetector
  confusionScore : ℚ
  engagement : EngagementScorer
  noseXHistory : List ℚ      -- deque(maxlen=CONFUSION_WINDOW)
  noseYHistory : List ℚ      -- deque(maxlen=CONFUSION_WINDOW)
  frameTimes : List ℚ        -- deque(maxlen=30)
  frameNumber : ℕ
  deriving DecidableEq

/-- `EngagementPipeline.__init__` (state part). -/
def PipelineState.init : PipelineState :=
  { ear := EARDetector.init, head := HeadPoseDetector.init,
    gaze := EyeContactDetector.init, gesture := GestureDetector.init,
    confusionScore := 0, engagement := EngagementScorer.init,
    noseXHistory := [], noseYHistory := [], frameTimes := [], frameNumber := 0 }

/-- Micro-movement variance over the pipeline's nose position histories
(`pipeline.py` lines 210–215). -/
def microVar (noseXHistory noseYHistory : List ℚ) : ℚ :=
  if 1 < noseXHistory.length then
    min ((varQ noseXHistory + varQ noseYHistory) / (2 * MICRO_MOVE_HIGH)) 1
  else 0

/-- `EngagementPipeline.process_frame`.  The two `time.perf_counter()`
readings are explicit inputs `tStart` (loop start, also pushed into the
FPS buffer) and `tInfer` (after landmark inference); the landmark
collaborator's output is `detection` (`none` = no face this frame, `some`
= the geometry-kernel scalars of the detected face's landmark array).
CSV logging performs no state change and is omitted. -/
def processFrame (s : PipelineState) (tStart tInfer : ℚ)
    (detection : Option FaceData) : PipelineState × EngagementResult :=
  let frameNumber := s.frameNumber + 1
  let frameTimes := pushCap 30 s.frameTimes tStart
  let fps :=
    if 2 ≤ frameTimes.length then
      let elapsed := frameTimes.getLastD 0 - frameTimes.headD 0
      round1 (((frameTimes.length : ℚ) - 1) / max elapsed (1e-6))
    else 0
  let inferenceMs := round1 ((tInfer - tStart) * 1000)
  match detection with
  | none =>
      ({ s with frameNumber := frameNumber, frameTimes := frameTimes },
       { EngagementResult.mkDefault frameNumber with
           fps := fps, inferenceMs := inferenceMs, faceDetected := false })
  | some f =>
      let ear := s.ear.update f.earLeft f.earRight
      let head := s.head.update f.angle
      let gaze := s.gaze.update f.deviation
      let gesture := s.gesture.update f.noseX f.noseY
      let noseXHistory := pushCap CONFUSION_WINDOW s.noseXHistory f.noseX
      let noseYHistory := pushCap CONFUSION_WINDOW s.noseYHistory f.noseY
      let micro := microVar noseXHistory noseYHistory
      let confusionScore :=
        confusionCompute ear.blinksPerMinute head.angleVariance gaze.gazeLossScore micro
      let engagement :=
        s.engagement.compute ear.normalisedEar head.normalisedStability
          gaze.contactRatio confusionScore
      ({ ear := ear, head := head, gaze := gaze, gesture := gesture,
         confusionScore := confusionScore, engagement := engagement,
         noseXHistory := noseXHistory, noseYHistory := noseYHistory,
         frameTimes := frameTimes, frameNumber := frameNumber },
       { frameNumber := frameNumber, faceDetected := true,
         fps := fps, inferenceMs := inferenceMs,
         earLeft := ear.earLeft, earRight := ear.earRight, earAvg := ear.earAvg,
         isBlinking := ear.isBlinking, isSleeping := ear.isSleeping,
         blinkCount := ear.totalBlinks, blinksPerMinute := ear.blinksPerMinute,
         tiltAngleDeg := head.tiltAngleDeg, isTilted := head.isTilted,
         eyeContact := gaze.eyeContact, contactRatio := gaze.contactRatio,
         confusionScore := confusionScore, engagementScore := engagement.score,
         headNod := gesture.headNod, headShake := gesture.headShake })

/-- Run the pipeline over a list of frames, each frame being its two clock
readings paired with the landmark collaborator's output; returns the final
state and the per-frame result snapshots. -/
def runPipeline (s : PipelineState) :
    List ((ℚ × ℚ) × Option FaceData) → PipelineState × List EngagementResult
  | [] => (s, [])
  | (t, f) :: rest =>
      let step := processFrame s t.1 t.2 f
      let tail := runPipeline step.1 rest
      (tail.1, step.2 :: tail.2)

/-- Agreement of two result snapshots on every field except the two
wall-clock-derived ones (`fps`, `inference_ms`). -/
def eqNonTiming (r r' : EngagementResult) : Prop :=
  r.frameNumber = r'.frameNumber ∧ r.faceDetected = r'.faceDetected ∧
  r.earLeft = r'.earLeft ∧ r.earRight = r'.earRight ∧ r.earAvg = r'.earAvg ∧
  r.isBlinking = r'.isBlinking ∧ r.isSleeping = r'.isSleeping ∧
  r.blinkCount = r'.blinkCount ∧ r.blinksPerMinute = r'.blinksPerMinute ∧
  r.tiltAngleDeg = r'.tiltAngleDeg ∧ r.isTilted = r'.isTilted ∧
  r.eyeContact = r'.eyeContact ∧ r.contactRatio = r'.contactRatio ∧
  r.confusionScore = r'.confusionScore ∧ r.engagementScore = r'.engagementScore ∧
  r.headNod = r'.headNod ∧ r.headShake = r'.headShake

/-- A face frame's EAR inputs are geometry-kernel outputs, hence
nonnegative (`eye_aspect_ratio` returns a quotient of distances or 0). -/
def FaceOk (f : FaceData) : Prop := 0 ≤ f.earLeft ∧ 0 ≤ f.earRight

/-- Range invariant on the pipeline state: the quantities the scorers read
stay in their documented ranges. -/
def PipeInv (s : PipelineState) : Prop :=
  0 ≤ s.ear.earAvg ∧
  (0 ≤ s.head.angleVariance ∧ s.head.angleVariance ≤ 1) ∧
  (∀ x ∈ s.gaze.contactHistory, 0 ≤ x ∧ x ≤ 1) ∧
  (0 ≤ s.gaze.contactRatio ∧ s.gaze.contactRatio ≤ 1) ∧
  (∀ x ∈ s.engagement.scoreHistory, 0 ≤ x ∧ x ≤ 100) ∧
  (0 ≤ s.engagement.score ∧ s.engagement.score ≤ 100) ∧
  (0 ≤ s.engagement.rawScore ∧ s.engagement.rawScore ≤ 100) ∧
  (0 ≤ s.confusionScore ∧ s.confusionScore ≤ 100)

/-! ## Geometry kernel (`landmarks.py`)

Embedded over `ℝ` because the Euclidean distance takes a square root.  A
landmark frame is index-addressed. -/

/-- A landmark array: pixel coordinates by landmark index. -/
def LandmarkFrame : Type := ℕ → ℝ × ℝ

def NOSE_TIP : ℕ := 4
def LEFT_CHEEK : ℕ := 234
def RIGHT_CHEEK : ℕ := 454
def FOREHEAD : ℕ := 10
def CHIN : ℕ := 152
def LEFT_EYE_EAR : List ℕ := [33, 160, 158, 133, 153, 144]
def RIGHT_EYE_EAR : List ℕ := [362, 385, 387, 263, 373, 380]

/-- `euclidean(p1, p2)`. -/
noncomputable def euclidean (p q : ℝ × ℝ) : ℝ :=
  Real.sqrt ((p.1 - q.1) * (p.1 - q.1) + (p.2 - q.2) * (p.2 - q.2))

/-- `eye_aspect_ratio(lm_xy, indices)`: `(d(p2,p6)+d(p3,p5)) / (2*d(p1,p4))`
with the zero guard on a degenerate horizontal distance. -/
noncomputable def eyeAspectRatio (lm : LandmarkFrame) (indices : List ℕ) : ℝ :=
  let p := fun i => lm (indices.getD i 0)
  let verticalA := euclidean (p 1) (p 5)
  let verticalB := euclidean (p 2) (p 4)
  let horizontal := euclidean (p 0) (p 3)
  if horizontal < 1e-6 then 0
  else (verticalA + verticalB) / (2 * horizontal)

/-- `nose_face_deviation(lm_xy)` with the zero guard on a degenerate face
width. -/
noncomputable def noseFaceDeviation (lm : LandmarkFrame) : ℝ :=
  let noseX := (lm NOSE_TIP).1
  let leftX := (lm LEFT_CHEEK).1
  let rightX := (lm RIGHT_CHEEK).1
  let faceWidth := rightX - leftX
  if faceWidth < 1e-6 then 0
  else (noseX - (leftX + rightX) / 2) / faceWidth

/-! ## Helper lemmas -/

/-- The no-face branch of `process_frame` only advances the frame number
and the FPS time buffer. -/
theorem processFrame_none_fst (s : PipelineState) (tStart tInfer : ℚ) :
    (processFrame s tStart tInfer none).1 =
      { s with frameNumber := s.frameNumber + 1,
               frameTimes := pushCap 30 s.frameTimes tStart } := rfl

/-- round on ℚ is monotone. -/
theorem round_monoQ {x y : ℚ} (h : x ≤ y) : round x ≤ round y := by
  rw [round_eq, round_eq]
  exact Int.floor_le_floor (by linarith)

/-- round1 is idempotent. -/
theorem round1_round1 (x : ℚ) : round1 (round1 x) = round1 x := by
  unfold round1
  rw [show (10 : ℚ) * ((round (10 * x) : ℤ) / 10) = ((round (10 * x) : ℤ) : ℚ) by ring,
      round_intCast]

theorem round1_nonneg {x : ℚ} (h : 0 ≤ x) : 0 ≤ round1 x := by
  unfold round1
  have h0 : (0 : ℤ) ≤ round (10 * x) := by
    have := round_monoQ (show (0 : ℚ) ≤ 10 * x by linarith)
    simpa using this
  positivity

theorem round1_le_hundred {x : ℚ} (h : x ≤ 100) : round1 x ≤ 100 := by
  unfold round1
  have h0 : round (10 * x) ≤ 1000 := by
    have := round_monoQ (show 10 * x ≤ ((1000 : ℤ) : ℚ) by push_cast; linarith)
    simpa using this
  have : ((round (10 * x) : ℤ) : ℚ) ≤ 1000 := by exact_mod_cast h0
  linarith

theorem meanQ_replicate {k : ℕ} (r : ℚ) (hk : 1 ≤ k) :
    meanQ (List.replicate k r) = r := by
  unfold meanQ
  rw [List.sum_replicate, List.length_replicate, nsmul_eq_mul]
  have hne : (k : ℚ) ≠ 0 := by
    exact_mod_cast Nat.one_le_iff_ne_zero.mp hk
  exact mul_div_cancel_left₀ r hne

theorem pushCap_replicate_self (cap n : ℕ) (r : ℚ) :
    pushCap cap (List.replicate n r) r = List.replicate (min (n + 1) cap) r := by
  unfold pushCap
  rw [show List.replicate n r ++ [r] = List.replicate (n + 1) r by
        simpa using (List.replicate_succ' n r).symm]
  simp only [List.length_replicate]
  split
  · rename_i h
    rw [List.drop_replicate]
    congr 1
    omega
  · rename_i h
    congr 1
    omega

/-! ## Claim theorems -/

/-- C10: on every no-face frame the returned snapshot's metric fields are
the `EngagementResult` construction defaults rather than the last computed
values: `eye_contact = true`, `contact_ratio = 1.0`,
`engagement_score = 50.0`, `confusion_score = 0.0`, all EAR fields `0.0`
and every boolean event flag `false` — a no-face frame reads as full eye
contact and neutral engagement. -/
theorem C10_no_face_result_is_construction_defaults
    (s : PipelineState) (tStart tInfer : ℚ) :
    (processFrame s tStart tInfer none).2.faceDetected = false ∧
    (processFrame s tStart tInfer none).2.eyeContact = true ∧
    (processFrame s tStart tInfer none).2.contactRatio = 1 ∧
    (processFrame s tStart tInfer none).2.engagementScore = 50 ∧
    (processFrame s tStart tInfer none).2.confusionScore = 0 ∧
    (processFrame s tStart tInfer none).2.earLeft = 0 ∧
    (processFrame s tStart tInfer none).2.earRight = 0 ∧
    (processFrame s tStart tInfer none).2.earAvg = 0 ∧
    (processFrame s tStart tInfer none).2.isBlinking = false ∧
    (processFrame s tStart tInfer none).2.isSleeping = false ∧
    (processFrame s tStart tInfer none).2.isTilted = false ∧
    (processFrame s tStart tInfer none).2.headNod = false ∧
    (processFrame s tStart tInfer none).2.headShake = false ∧
    (processFrame s tStart tInfer none).2.blinkCount = 0 ∧
    (processFrame s tStart tInfer none).2.blinksPerMinute = 0 ∧
    (processFrame s tStart tInfer none).2.tiltAngleDeg = 0 ∧
    (processFrame s tStart tInfer none).2.frameNumber = s.frameNumber + 1 :=
  ⟨rfl, rfl, rfl, rfl, rfl, rfl, rfl, rfl, rfl, rfl, rfl, rfl, rfl, rfl,
   rfl, rfl, rfl⟩

/-- C1: a run of consecutive no-face frames leaves every detector's
rolling buffers, consecutive-frame counters, cooldown counters and
cumulative totals — and the pipeline's nose-position histories, confusion
score cell and engagement scorer buffer — exactly as they were before the
run, and every result in the run has `face_detected = false`. -/
theorem C1_no_face_run_preserves_detector_state
    (s : PipelineState) (times : List (ℚ × ℚ)) :
    (runPipeline s (times.map (fun t => (t, none)))).1.ear = s.ear ∧
    (runPipeline s (times.map (fun t => (t, none)))).1.head = s.head ∧
    (runPipeline s (times.map (fun t => (t, none)))).1.gaze = s.gaze ∧
    (runPipeline s (times.map (fun t => (t, none)))).1.gesture = s.gesture ∧
    (runPipeline s (times.map (fun t => (t, none)))).1.noseXHistory = s.noseXHistory ∧
    (runPipeline s (times.map (fun t => (t, none)))).1.noseYHistory = s.noseYHistory ∧
    (runPipeline s (times.map (fun t => (t, none)))).1.confusionScore = s.confusionScore ∧
    (runPipeline s (times.map (fun t => (t, none)))).1.engagement = s.engagement ∧
    ∀ r ∈ (runPipeline s (times.map (fun t => (t, none)))).2, r.faceDetected = false := by
  induction times generalizing s with
  | nil => simp [runPipeline]
  | cons t rest ih =>
      have h := ih { s with frameNumber := s.frameNumber + 1,
                            frameTimes := pushCap 30 s.frameTimes t.1 }
      simp only [List.map_cons, runPipeline, processFrame_none_fst, List.mem_cons]
      exact ⟨h.1, h.2.1, h.2.2.1, h.2.2.2.1, h.2.2.2.2.1, h.2.2.2.2.2.1,
        h.2.2.2.2.2.2.1, h.2.2.2.2.2.2.2.1,
        fun r hr => hr.elim (fun he => he ▸ rfl)
          (fun hm => h.2.2.2.2.2.2.2.2 r hm)⟩

/-- C9: when a geometry ratio's denominator is near zero the kernel
returns the neutral value 0 instead of failing: `eye_aspect_ratio` returns
0 when the horizontal p1–p4 distance is below the 1e-6 epsilon, and
`nose_face_deviation` returns 0 when the cheek-to-cheek face width is
below it; both functions are total, so the frame is not aborted. -/
theorem C9_degenerate_geometry_returns_zero :
    (∀ (lm : LandmarkFrame) (indices : List ℕ),
        euclidean (lm (indices.getD 0 0)) (lm (indices.getD 3 0)) < 1e-6 →
        eyeAspectRatio lm indices = 0) ∧
    (∀ lm : LandmarkFrame,
        (lm RIGHT_CHEEK).1 - (lm LEFT_CHEEK).1 < 1e-6 →
        noseFaceDeviation lm = 0) := by
  constructor
  · intro lm indices h
    unfold eyeAspectRatio
    rw [if_pos h]
  · intro lm h
    unfold noseFaceDeviation
    rw [if_pos h]

/-- Witness for C9: the all-zero landmark frame is degenerate in both
senses and both kernels return 0 on it. -/
theorem C9_degenerate_geometry_returns_zero_witness :
    euclidean ((0 : ℝ), (0 : ℝ)) ((0 : ℝ), (0 : ℝ)) < 1e-6 ∧
    eyeAspectRatio (fun _ => ((0 : ℝ), (0 : ℝ))) LEFT_EYE_EAR = 0 ∧
    noseFaceDeviation (fun _ => ((0 : ℝ), (0 : ℝ))) = 0 := by
  have h : euclidean ((0 : ℝ), (0 : ℝ)) ((0 : ℝ), (0 : ℝ)) < 1e-6 := by
    unfold euclidean
    norm_num
  exact ⟨h,
    C9_degenerate_geometry_returns_zero.1 (fun _ => ((0 : ℝ), (0 : ℝ))) LEFT_EYE_EAR h,
    C9_degenerate_geometry_returns_zero.2 (fun _ => ((0 : ℝ), (0 : ℝ))) (by norm_num)⟩

/-- C6: the confusion scorer is a pure function of its four inputs
(`confusionCompute` is a function of exactly those four arguments).  At
`blink_rate` equal to the low bound with the other three sub-signals `0`
it returns 0; at `blink_rate` at or above the high bound with the other
three inputs `1.0` it returns 100 (the weight map sums to 1); and the
blink-rate sub-signal is 0 at or below the low bound, 1 at or above the
high bound, and linearly interpolated in between. -/
theorem C6_confusion_scorer_endpoints_and_linearity (b : ℚ) :
    (b ≤ BLINK_RATE_LOW → blinkRateSignal b = 0) ∧
    (BLINK_RATE_HIGH ≤ b → blinkRateSignal b = 1) ∧
    (BLINK_RATE_LOW < b → b < BLINK_RATE_HIGH →
      blinkRateSignal b = (b - BLINK_RATE_LOW) / (BLINK_RATE_HIGH - BLINK_RATE_LOW)) ∧
    confusionCompute BLINK_RATE_LOW 0 0 0 = 0 ∧
    (BLINK_RATE_HIGH ≤ b → confusionCompute b 1 1 1 = 100) ∧
    W_BLINK_RATE + W_HEAD_VARIANCE + W_GAZE_REDUCTION + W_MICRO_MOVEMENT = 1 := by
  refine ⟨?_, ?_, ?_, ?eq0, ?_, by norm_num [W_BLINK_RATE, W_HEAD_VARIANCE,
    W_GAZE_REDUCTION, W_MICRO_MOVEMENT]⟩
  case eq0 =>
    norm_num [confusionCompute, blinkRateSignal, headVarianceSignal,
      gazeLossSignal, microMovementSignal, W_BLINK_RATE, W_HEAD_VARIANCE,
      W_GAZE_REDUCTION, W_MICRO_MOVEMENT, BLINK_RATE_LOW, round1]
  · intro h
    unfold blinkRateSignal
    rw [if_pos h]
  · intro h
    unfold blinkRateSignal
    rw [if_neg (by unfold BLINK_RATE_LOW BLINK_RATE_HIGH at *; linarith), if_pos h]
  · intro h1 h2
    unfold blinkRateSignal
    rw [if_neg (by linarith), if_neg (by linarith)]
  · intro h
    have hsig : blinkRateSignal b = 1 := by
      unfold blinkRateSignal
      rw [if_neg (by unfold BLINK_RATE_LOW BLINK_RATE_HIGH at *; linarith), if_pos h]
    unfold confusionCompute
    rw [hsig]
    norm_num [headVarianceSignal, gazeLossSignal, microMovementSignal,
      W_BLINK_RATE, W_HEAD_VARIANCE, W_GAZE_REDUCTION, W_MICRO_MOVEMENT, round1]

/-- Witness for C6: the conditional parts instantiated at a concrete
blink rate of 30 blinks/minute. -/
theorem C6_confusion_scorer_endpoints_and_linearity_witness :
    BLINK_RATE_HIGH ≤ (30 : ℚ) ∧ blinkRateSignal 30 = 1 ∧
    confusionCompute 30 1 1 1 = 100 := by
  have h : BLINK_RATE_HIGH ≤ (30 : ℚ) := by norm_num [BLINK_RATE_HIGH]
  exact ⟨h, (C6_confusion_scorer_endpoints_and_linearity 30).2.1 h,
    (C6_confusion_scorer_endpoints_and_linearity 30).2.2.2.2.1 h⟩

/-- Unfolding lemma: the raw engagement score of one `compute` call. -/
theorem compute_rawScore (s : EngagementScorer) (o st c conf : ℚ) :
    (s.compute o st c conf).rawScore =
      round1 (max 0 (min (W_EYE_OPENNESS * o + W_HEAD_STABILITY * st +
        W_EYE_CONTACT * c - W_CONFUSION_PENALTY * (conf / 100)) 1) * 100) := rfl

/-- Unfolding lemma: the buffer after one `compute` call. -/
theorem compute_scoreHistory (s : EngagementScorer) (o st c conf : ℚ) :
    (s.compute o st c conf).scoreHistory =
      pushCap ENGAGEMENT_WINDOW s.scoreHistory (s.compute o st c conf).rawScore := rfl

/-- Unfolding lemma: the published score after one `compute` call. -/
theorem compute_score (s : EngagementScorer) (o st c conf : ℚ) :
    (s.compute o st c conf).score =
      round1 (meanQ ((s.compute o st c conf).scoreHistory)) := rfl

/-- The raw engagement score does not depend on the scorer state. -/
theorem compute_rawScore_state_free (s s' : EngagementScorer) (o st c conf : ℚ) :
    (s.compute o st c conf).rawScore = (s'.compute o st c conf).rawScore := rfl

/-- Repeating one input combination from a fresh engagement scorer fills
the rolling buffer with copies of its raw score. -/
theorem runEngagement_history (o st c conf : ℚ) (k : ℕ) (hk : 1 ≤ k) :
    (runEngagement EngagementScorer.init o st c conf k).rawScore =
      (EngagementScorer.init.compute o st c conf).rawScore ∧
    (runEngagement EngagementScorer.init o st c conf k).scoreHistory =
      List.replicate (min k ENGAGEMENT_WINDOW)
        ((EngagementScorer.init.compute o st c conf).rawScore) := by
  induction k with
  | zero => omega
  | succ n ih =>
    rcases Nat.eq_zero_or_pos n with h0 | hpos
    · subst h0
      refine ⟨rfl, ?_⟩
      show pushCap ENGAGEMENT_WINDOW ([] : List ℚ) _ = _
      norm_num [pushCap, ENGAGEMENT_WINDOW]
      exact (compute_rawScore EngagementScorer.init o st c conf).symm
    · have hh := ih hpos
      constructor
      · exact compute_rawScore_state_free _ _ o st c conf
      · show (EngagementScorer.compute _ o st c conf).scoreHistory = _
        rw [compute_scoreHistory, compute_rawScore_state_free _ EngagementScorer.init o st c conf,
            hh.2, pushCap_replicate_self]
        congr 1
        omega

/-- C8: per frame the engagement scorer computes
`raw = clamp(w_openness*openness + w_stability*stability +
w_contact*contact_ratio - w_confusion_penalty*(confusion/100), 0, 1)`,
scales by 100 and rounds to one decimal, pushes that raw score into its
rolling buffer and publishes `round(mean(buffer), 1)`; repeating one input
combination from a fresh scorer until the buffer fills makes the
published smoothed score equal that raw score (here for every `k ≥ 1`
repetitions, in particular when the buffer is full). -/
theorem C8_engagement_formula_and_smoothing
    (o st c conf : ℚ) (s : EngagementScorer) (k : ℕ) (hk : 1 ≤ k) :
    (s.compute o st c conf).rawScore =
      round1 (max 0 (min (W_EYE_OPENNESS * o + W_HEAD_STABILITY * st +
        W_EYE_CONTACT * c - W_CONFUSION_PENALTY * (conf / 100)) 1) * 100) ∧
    (s.compute o st c conf).scoreHistory =
      pushCap ENGAGEMENT_WINDOW s.scoreHistory (s.compute o st c conf).rawScore ∧
    (s.compute o st c conf).score =
      round1 (meanQ ((s.compute o st c conf).scoreHistory)) ∧
    (runEngagement EngagementScorer.init o st c conf k).score =
      (runEngagement EngagementScorer.init o st c conf k).rawScore := by
  refine ⟨rfl, rfl, rfl, ?_⟩
  obtain ⟨hraw, hhist⟩ := runEngagement_history o st c conf k hk
  have hk' : 1 ≤ k := hk
  cases k with
  | zero => omega
  | succ n =>
    have hscore : (runEngagement EngagementScorer.init o st c conf (n + 1)).score =
        round1 (meanQ ((runEngagement EngagementScorer.init o st c conf (n + 1)).scoreHistory)) :=
      compute_score _ o st c conf
    rw [hscore, hhist, hraw,
        meanQ_replicate _ (by unfold ENGAGEMENT_WINDOW; omega),
        compute_rawScore, round1_round1]

/-- Witness for C8: the smoothing part instantiated at one concrete input
combination repeated until the 30-frame buffer is full. -/
theorem C8_engagement_formula_and_smoothing_witness :
    1 ≤ 30 ∧
    (runEngagement EngagementScorer.init 1 1 1 0 30).score =
      (runEngagement EngagementScorer.init 1 1 1 0 30).rawScore :=
  ⟨by omega,
   (C8_engagement_formula_and_smoothing 1 1 1 0 EngagementScorer.init 30 (by omega)).2.2.2⟩

/-- Unfolding lemma: the EAR smoothing buffer after one update. -/
theorem update_earHistory (s : EARDetector) (l r : ℚ) :
    (s.update l r).earHistory =
      pushCap SMOOTHING_WINDOW s.earHistory ((l + r) / 2) := rfl

/-- Unfolding lemma: the sleep counter after one update. -/
theorem update_sleepCounter (s : EARDetector) (l r : ℚ) :
    (s.update l r).sleepCounter =
      if meanQ (pushCap SMOOTHING_WINDOW s.earHistory ((l + r) / 2)) < SLEEP_EAR_THRESHOLD
      then s.sleepCounter + 1 else 0 := rfl

/-- Unfolding lemma: the sleep flag after one update. -/
theorem update_isSleeping (s : EARDetector) (l r : ℚ) :
    (s.update l r).isSleeping =
      if SLEEP_CONSEC_FRAMES ≤ (s.update l r).sleepCounter then true else false := rfl

/-- The sleep flag is true exactly when the updated counter reaches the
threshold. -/
theorem update_isSleeping_iff (s : EARDetector) (l r : ℚ) :
    (s.update l r).isSleeping = true ↔
      SLEEP_CONSEC_FRAMES ≤ (s.update l r).sleepCounter := by
  rw [update_isSleeping]
  by_cases h : SLEEP_CONSEC_FRAMES ≤ (s.update l r).sleepCounter <;> simp [h]

/-- Peeling the last frame off a constant-signal EAR run. -/
theorem runEAR_replicate_succ (s : EARDetector) (a : ℚ) (j : ℕ) :
    runEAR s (List.replicate (j + 1) a) = (runEAR s (List.replicate j a)).update a a := by
  unfold runEAR
  rw [List.replicate_succ' j a, List.foldl_append]
  rfl

/-- A constant EAR signal below the sleep threshold fills the smoothing
buffer with itself and advances the sleep counter every frame. -/
theorem runEAR_const_low (a : ℚ) (ha : a < SLEEP_EAR_THRESHOLD) (j : ℕ) :
    (runEAR EARDetector.init (List.replicate j a)).earHistory =
      List.replicate (min j SMOOTHING_WINDOW) a ∧
    (runEAR EARDetector.init (List.replicate j a)).sleepCounter = j := by
  induction j with
  | zero => exact ⟨rfl, rfl⟩
  | succ n ih =>
    rw [runEAR_replicate_succ]
    have havg : (a + a) / 2 = a := by ring
    constructor
    · rw [update_earHistory, ih.1, havg, pushCap_replicate_self]
      congr 1
      unfold SMOOTHING_WINDOW
      omega
    · rw [update_sleepCounter, ih.1, havg, pushCap_replicate_self,
          meanQ_replicate _ (by unfold SMOOTHING_WINDOW; omega), if_pos ha, ih.2]

/-- C3: the sleep counter is incremented on every frame whose smoothed
EAR is below `SLEEP_EAR_THRESHOLD` and reset to 0 otherwise, and
`is_sleeping` is true exactly when that counter is at least
`SLEEP_CONSEC_FRAMES`; a constant signal below the threshold from reset
makes `is_sleeping` true exactly from frame `SLEEP_CONSEC_FRAMES` on, and
on any frame whose smoothed EAR is at or above the threshold the flag is
false (no release hysteresis). -/
theorem C3_sleep_counter_and_flag (s : EARDetector) (l r a : ℚ) (j : ℕ)
    (ha : a < SLEEP_EAR_THRESHOLD) :
    ((s.update l r).sleepCounter =
      if meanQ ((s.update l r).earHistory) < SLEEP_EAR_THRESHOLD
      then s.sleepCounter + 1 else 0) ∧
    ((s.update l r).isSleeping = true ↔
      SLEEP_CONSEC_FRAMES ≤ (s.update l r).sleepCounter) ∧
    (runEAR EARDetector.init (List.replicate j a)).sleepCounter = j ∧
    ((runEAR EARDetector.init (List.replicate j a)).isSleeping = true ↔
      SLEEP_CONSEC_FRAMES ≤ j) ∧
    (SLEEP_EAR_THRESHOLD ≤ meanQ ((s.update l r).earHistory) →
      (s.update l r).isSleeping = false) := by
  refine ⟨update_sleepCounter s l r, update_isSleeping_iff s l r,
    (runEAR_const_low a ha j).2, ?_, ?_⟩
  · cases j with
    | zero =>
        simp only [List.replicate_zero]
        show EARDetector.init.isSleeping = true ↔ _
        simp [EARDetector.init, SLEEP_CONSEC_FRAMES]
    | succ n =>
        rw [runEAR_replicate_succ, update_isSleeping_iff]
        rw [show ((runEAR EARDetector.init (List.replicate n a)).update a a).sleepCounter =
              (runEAR EARDetector.init (List.replicate (n + 1) a)).sleepCounter by
            rw [runEAR_replicate_succ]]
        rw [(runEAR_const_low a ha (n + 1)).2]
  · intro h
    rw [update_earHistory] at h
    rw [update_isSleeping, update_sleepCounter, if_neg (not_lt.mpr h)]
    simp [SLEEP_CONSEC_FRAMES]

/-- Witness for C3: a signal of 0.1 held for 150 frames puts the detector
to sleep; held for 149 frames it does not. -/
theorem C3_sleep_counter_and_flag_witness :
    (0.1 : ℚ) < SLEEP_EAR_THRESHOLD ∧
    (runEAR EARDetector.init (List.replicate 150 (0.1 : ℚ))).isSleeping = true ∧
    (runEAR EARDetector.init (List.replicate 149 (0.1 : ℚ))).isSleeping = false := by
  have ha : (0.1 : ℚ) < SLEEP_EAR_THRESHOLD := by norm_num [SLEEP_EAR_THRESHOLD]
  refine ⟨ha, ?_, ?_⟩
  · exact (C3_sleep_counter_and_flag EARDetector.init 0 0 0.1 150 ha).2.2.2.1.mpr
      (by norm_num [SLEEP_CONSEC_FRAMES])
  · have h := (C3_sleep_counter_and_flag EARDetector.init 0 0 0.1 149 ha).2.2.2.1
    refine Bool.eq_false_iff.mpr (fun ht => ?_)
    have := h.mp ht
    norm_num [SLEEP_CONSEC_FRAMES] at this

/-- Unfolding lemma: the nod flag after one gesture update. -/
theorem gestureUpdate_headNod (s : GestureDetector) (x y : ℚ) :
    (s.update x y).headNod =
      if NOD_OSCILLATIONS ≤
            countOscillations (pushCap GESTURE_WINDOW s.yHistory y) GESTURE_DEADZONE ∧
          decCooldown s.nodCooldown = 0
      then true else false := rfl

/-- Unfolding lemma: the shake flag after one gesture update. -/
theorem gestureUpdate_headShake (s : GestureDetector) (x y : ℚ) :
    (s.update x y).headShake =
      if SHAKE_OSCILLATIONS ≤
            countOscillations (pushCap GESTURE_WINDOW s.xHistory x) GESTURE_DEADZONE ∧
          decCooldown s.shakeCooldown = 0
      then true else false := rfl

/-- Unfolding lemma: the nod cooldown after one gesture update. -/
theorem gestureUpdate_nodCooldown (s : GestureDetector) (x y : ℚ) :
    (s.update x y).nodCooldown =
      if NOD_OSCILLATIONS ≤
            countOscillations (pushCap GESTURE_WINDOW s.yHistory y) GESTURE_DEADZONE ∧
          decCooldown s.nodCooldown = 0
      then GESTURE_COOLDOWN else decCooldown s.nodCooldown := rfl

/-- Unfolding lemma: the shake cooldown after one gesture update. -/
theorem gestureUpdate_shakeCooldown (s : GestureDetector) (x y : ℚ) :
    (s.update x y).shakeCooldown =
      if SHAKE_OSCILLATIONS ≤
            countOscillations (pushCap GESTURE_WINDOW s.xHistory x) GESTURE_DEADZONE ∧
          decCooldown s.shakeCooldown = 0
      then GESTURE_COOLDOWN else decCooldown s.shakeCooldown := rfl

/-- A gesture update under an active cooldown of at least 2 keeps the nod
flag off and just counts the cooldown down. -/
theorem gestureUpdate_nod_suppressed (s : GestureDetector) (x y : ℚ)
    (h : 2 ≤ s.nodCooldown) :
    (s.update x y).headNod = false ∧ (s.update x y).nodCooldown = s.nodCooldown - 1 := by
  have hdec : decCooldown s.nodCooldown = s.nodCooldown - 1 := by
    unfold decCooldown
    rw [if_pos (by omega)]
  have hne : ¬ (NOD_OSCILLATIONS ≤
        countOscillations (pushCap GESTURE_WINDOW s.yHistory y) GESTURE_DEADZONE ∧
      decCooldown s.nodCooldown = 0) := by
    rintro ⟨-, hc⟩
    omega
  exact ⟨by rw [gestureUpdate_headNod, if_neg hne],
         by rw [gestureUpdate_nodCooldown, if_neg hne, hdec]⟩

/-- Same suppression fact for the shake flag. -/
theorem gestureUpdate_shake_suppressed (s : GestureDetector) (x y : ℚ)
    (h : 2 ≤ s.shakeCooldown) :
    (s.update x y).headShake = false ∧
    (s.update x y).shakeCooldown = s.shakeCooldown - 1 := by
  have hdec : decCooldown s.shakeCooldown = s.shakeCooldown - 1 := by
    unfold decCooldown
    rw [if_pos (by omega)]
  have hne : ¬ (SHAKE_OSCILLATIONS ≤
        countOscillations (pushCap GESTURE_WINDOW s.xHistory x) GESTURE_DEADZONE ∧
      decCooldown s.shakeCooldown = 0) := by
    rintro ⟨-, hc⟩
    omega
  exact ⟨by rw [gestureUpdate_headShake, if_neg hne],
         by rw [gestureUpdate_shakeCooldown, if_neg hne, hdec]⟩

/-- While more frames remain than the cooldown has counted down, the nod
flag stays off. -/
theorem runGesture_nod_cooldown_silent :
    ∀ (l : List (ℚ × ℚ)) (s : GestureDetector),
      l.length < s.nodCooldown → 1 ≤ l.length → (runGesture s l).headNod = false := by
  intro l
  induction l with
  | nil => intro s h1 h2; simp at h2
  | cons p t ih =>
    intro s hlen _
    have h2 : 2 ≤ s.nodCooldown := by
      simp only [List.length_cons] at hlen
      omega
    have hsup := gestureUpdate_nod_suppressed s p.1 p.2 h2
    show (runGesture (s.update p.1 p.2) t).headNod = false
    cases t with
    | nil => exact hsup.1
    | cons q u =>
      refine ih (s.update p.1 p.2) ?_ (by simp)
      rw [hsup.2]
      simp only [List.length_cons] at hlen ⊢
      omega

/-- Shake version of the cooldown silence lemma. -/
theorem runGesture_shake_cooldown_silent :
    ∀ (l : List (ℚ × ℚ)) (s : GestureDetector),
      l.length < s.shakeCooldown → 1 ≤ l.length → (runGesture s l).headShake = false := by
  intro l
  induction l with
  | nil => intro s h1 h2; simp at h2
  | cons p t ih =>
    intro s hlen _
    have h2 : 2 ≤ s.shakeCooldown := by
      simp only [List.length_cons] at hlen
      omega
    have hsup := gestureUpdate_shake_suppressed s p.1 p.2 h2
    show (runGesture (s.update p.1 p.2) t).headShake = false
    cases t with
    | nil => exact hsup.1
    | cons q u =>
      refine ih (s.update p.1 p.2) ?_ (by simp)
      rw [hsup.2]
      simp only [List.length_cons] at hlen ⊢
      omega

/-- C4: a gesture flag is true exactly when its oscillation count (nod
from the y-buffer, shake from the x-buffer) meets its threshold and its
cooldown counter is 0 at the moment of the check (after the per-frame
decrement); on firing the cooldown is set to `GESTURE_COOLDOWN`, so the
flag stays false for the next `GESTURE_COOLDOWN - 1` frames regardless of
the oscillation counts on those frames. -/
theorem C4_gesture_fire_iff_and_cooldown (s : GestureDetector) (x y : ℚ) :
    ((s.update x y).headNod = true ↔
      NOD_OSCILLATIONS ≤
          countOscillations (pushCap GESTURE_WINDOW s.yHistory y) GESTURE_DEADZONE ∧
        decCooldown s.nodCooldown = 0) ∧
    ((s.update x y).headShake = true ↔
      SHAKE_OSCILLATIONS ≤
          countOscillations (pushCap GESTURE_WINDOW s.xHistory x) GESTURE_DEADZONE ∧
        decCooldown s.shakeCooldown = 0) ∧
    ((s.update x y).headNod = true → (s.update x y).nodCooldown = GESTURE_COOLDOWN) ∧
    ((s.update x y).headShake = true → (s.update x y).shakeCooldown = GESTURE_COOLDOWN) ∧
    ((s.update x y).headNod = true →
      ∀ l : List (ℚ × ℚ), 1 ≤ l.length → l.length ≤ GESTURE_COOLDOWN - 1 →
        (runGesture (s.update x y) l).headNod = false) ∧
    ((s.update x y).headShake = true →
      ∀ l : List (ℚ × ℚ), 1 ≤ l.length → l.length ≤ GESTURE_COOLDOWN - 1 →
        (runGesture (s.update x y) l).headShake = false) := by
  have hnod : (s.update x y).headNod = true ↔
      NOD_OSCILLATIONS ≤
          countOscillations (pushCap GESTURE_WINDOW s.yHistory y) GESTURE_DEADZONE ∧
        decCooldown s.nodCooldown = 0 := by
    rw [gestureUpdate_headNod]
    split <;> simp_all
  have hshake : (s.update x y).headShake = true ↔
      SHAKE_OSCILLATIONS ≤
          countOscillations (pushCap GESTURE_WINDOW s.xHistory x) GESTURE_DEADZONE ∧
        decCooldown s.shakeCooldown = 0 := by
    rw [gestureUpdate_headShake]
    split <;> simp_all
  have hnodCd : (s.update x y).headNod = true →
      (s.update x y).nodCooldown = GESTURE_COOLDOWN := by
    intro h
    rw [gestureUpdate_nodCooldown, if_pos (hnod.mp h)]
  have hshakeCd : (s.update x y).headShake = true →
      (s.update x y).shakeCooldown = GESTURE_COOLDOWN := by
    intro h
    rw [gestureUpdate_shakeCooldown, if_pos (hshake.mp h)]
  refine ⟨hnod, hshake, hnodCd, hshakeCd, ?_, ?_⟩
  · intro h l h1 h2
    refine runGesture_nod_cooldown_silent l (s.update x y) ?_ h1
    rw [hnodCd h]
    unfold GESTURE_COOLDOWN at h2 ⊢
    omega
  · intro h l h1 h2
    refine runGesture_shake_cooldown_silent l (s.update x y) ?_ h1
    rw [hshakeCd h]
    unfold GESTURE_COOLDOWN at h2 ⊢
    omega

/-- Witness for C4: a y-history alternating between 0 and 0.01 (amplitude
above the deadzone) fires a nod on the next frame, and the pattern kept up
for the following 19 = cooldown − 1 frames does not re-fire it. -/
theorem C4_gesture_fire_iff_and_cooldown_witness :
    (((⟨[0, 0, 0, 0, 0], [0, 0.01, 0, 0.01, 0],
         false, false, 0, 0⟩ : GestureDetector).update 0 0.01).headNod = true) ∧
    (runGesture ((⟨[0, 0, 0, 0, 0], [0, 0.01, 0, 0.01, 0],
         false, false, 0, 0⟩ : GestureDetector).update 0 0.01)
       (List.replicate 19 ((0 : ℚ), (0.01 : ℚ)))).headNod = false := by
  have hosc : NOD_OSCILLATIONS ≤
      countOscillations (pushCap GESTURE_WINDOW [0, 0.01, 0, 0.01, 0] 0.01)
        GESTURE_DEADZONE := by
    have habs1 : |(1/100 : ℚ)| = 1/100 := abs_of_nonneg (by norm_num)
    have habs2 : |(-(1/100) : ℚ)| = 1/100 := by rw [abs_neg, habs1]
    norm_num [countOscillations, pushCap, diffsQ, signQ, countFlips,
      GESTURE_WINDOW, GESTURE_DEADZONE, NOD_OSCILLATIONS, List.filter_cons,
      decide_eq_true_eq, habs1, habs2]
  have hfire := (C4_gesture_fire_iff_and_cooldown
    (⟨[0, 0, 0, 0, 0], [0, 0.01, 0, 0.01, 0],
       false, false, 0, 0⟩ : GestureDetector) 0 0.01).1.mpr ⟨hosc, rfl⟩
  refine ⟨hfire, (C4_gesture_fire_iff_and_cooldown _ 0 0.01).2.2.2.2.1 hfire
    (List.replicate 19 ((0 : ℚ), (0.01 : ℚ))) (by simp) (by simp [GESTURE_COOLDOWN])⟩

/-- The FPS time buffer feeds only the timing fields: a frame processed
from a state differing only in `frameTimes`, at different clock readings,
yields the same successor state up to `frameTimes` and a snapshot that
agrees on every non-timing field. -/
theorem processFrame_frameTimes_irrelevant (s : PipelineState) (ft' : List ℚ)
    (t1 t2 u1 u2 : ℚ) (f : Option FaceData) :
    (processFrame { s with frameTimes := ft' } u1 u2 f).1 =
      { (processFrame s t1 t2 f).1 with frameTimes := pushCap 30 ft' u1 } ∧
    eqNonTiming (processFrame { s with frameTimes := ft' } u1 u2 f).2
      (processFrame s t1 t2 f).2 := by
  cases f with
  | none =>
      exact ⟨rfl, rfl, rfl, rfl, rfl, rfl, rfl, rfl, rfl, rfl, rfl, rfl, rfl,
        rfl, rfl, rfl, rfl, rfl⟩
  | some fd =>
      exact ⟨rfl, rfl, rfl, rfl, rfl, rfl, rfl, rfl, rfl, rfl, rfl, rfl, rfl,
        rfl, rfl, rfl, rfl, rfl⟩

/-- Two runs over the same frame sequence from states differing only in
the FPS time buffer produce per-position snapshots agreeing on every
non-timing field. -/
theorem runPipeline_nonTiming :
    ∀ (frames : List (Option FaceData)) (ts1 ts2 : List (ℚ × ℚ))
      (s : PipelineState) (ft' : List ℚ),
      ts1.length = frames.length → ts2.length = frames.length →
      List.Forall₂ eqNonTiming
        (runPipeline { s with frameTimes := ft' } (ts2.zip frames)).2
        (runPipeline s (ts1.zip frames)).2 := by
  intro frames
  induction frames with
  | nil =>
      intro ts1 ts2 s ft' h1 h2
      simp [runPipeline]
  | cons f fr ih =>
      intro ts1 ts2 s ft' h1 h2
      cases ts1 with
      | nil => simp at h1
      | cons a ts1' =>
        cases ts2 with
        | nil => simp at h2
        | cons b ts2' =>
          have hstep := processFrame_frameTimes_irrelevant s ft' a.1 a.2 b.1 b.2 f
          show List.Forall₂ eqNonTiming
            ((processFrame { s with frameTimes := ft' } b.1 b.2 f).2 ::
              (runPipeline (processFrame { s with frameTimes := ft' } b.1 b.2 f).1
                (ts2'.zip fr)).2)
            ((processFrame s a.1 a.2 f).2 ::
              (runPipeline (processFrame s a.1 a.2 f).1 (ts1'.zip fr)).2)
          refine List.Forall₂.cons hstep.2 ?_
          rw [hstep.1]
          exact ih ts1' ts2' (processFrame s a.1 a.2 f).1 (pushCap 30 ft' b.1)
            (by simpa using h1) (by simpa using h2)

/-- C7 counterexample: the determinism claim fails field-for-field on the
code, because `inference_ms` (and `fps`) are derived from wall-clock
readings: the same one-frame landmark sequence (a no-face frame) fed
twice into a fresh pipeline, with the landmark inference taking 10 ms in
the first run and 20 ms in the second, yields different snapshots. -/
theorem C7_determinism_counterexample :
    (runPipeline PipelineState.init [((0, 1/100), none)]).2 ≠
      (runPipeline PipelineState.init [((0, 2/100), none)]).2 := by
  intro h
  have h2 : (processFrame PipelineState.init 0 (1/100) none).2 =
      (processFrame PipelineState.init 0 (2/100) none).2 := by
    have := congrArg (fun l => l.head?) h
    simpa [runPipeline] using this
  have h3 := congrArg EngagementResult.inferenceMs h2
  rw [show (processFrame PipelineState.init 0 (1/100) none).2.inferenceMs =
        round1 ((1/100 - 0) * 1000) from rfl,
      show (processFrame PipelineState.init 0 (2/100) none).2.inferenceMs =
        round1 ((2/100 - 0) * 1000) from rfl] at h3
  norm_num [round1, round_eq] at h3

/-- C7 (amended): feeding the same fixed landmark sequence into a freshly
reset pipeline twice produces, at every frame position, snapshots equal on
every field except the wall-clock-derived `fps` and `inference_ms`. -/
theorem C7_determinism_modulo_timing (frames : List (Option FaceData))
    (ts1 ts2 : List (ℚ × ℚ)) (h1 : ts1.length = frames.length)
    (h2 : ts2.length = frames.length) :
    List.Forall₂ eqNonTiming
      (runPipeline PipelineState.init (ts2.zip frames)).2
      (runPipeline PipelineState.init (ts1.zip frames)).2 :=
  runPipeline_nonTiming frames ts1 ts2 PipelineState.init [] h1 h2

/-- Witness for C7 (amended): a concrete one-frame double run with
different inference times, agreeing on all non-timing fields. -/
theorem C7_determinism_modulo_timing_witness :
    [((0 : ℚ), (1/100 : ℚ))].length = [(none : Option FaceData)].length ∧
    List.Forall₂ eqNonTiming
      (runPipeline PipelineState.init
        ([((0 : ℚ), (2/100 : ℚ))].zip [(none : Option FaceData)])).2
      (runPipeline PipelineState.init
        ([((0 : ℚ), (1/100 : ℚ))].zip [(none : Option FaceData)])).2 :=
  ⟨rfl, C7_determinism_modulo_timing [none] [(0, 1/100)] [(0, 2/100)] rfl rfl⟩

/-- Elements of a capped push come from the old buffer or are the pushed
value. -/
theorem mem_pushCap {α : Type} {cap : ℕ} {l : List α} {v x : α}
    (h : x ∈ pushCap cap l v) : x ∈ l ∨ x = v := by
  simp only [pushCap] at h
  split at h
  · rcases List.mem_append.mp (List.mem_of_mem_drop h) with h' | h'
    · exact Or.inl h'
    · exact Or.inr (List.mem_singleton.mp h')
  · rcases List.mem_append.mp h with h' | h'
    · exact Or.inl h'
    · exact Or.inr (List.mem_singleton.mp h')

/-- The mean of a list of nonnegative rationals is nonnegative. -/
theorem meanQ_nonneg {l : List ℚ} (h : ∀ x ∈ l, 0 ≤ x) : 0 ≤ meanQ l := by
  unfold meanQ
  exact div_nonneg (List.sum_nonneg h) (by positivity)

/-- The mean of a list bounded above by a nonnegative bound is bounded by
it. -/
theorem meanQ_le {l : List ℚ} {hi : ℚ} (hhi : 0 ≤ hi) (h : ∀ x ∈ l, x ≤ hi) :
    meanQ l ≤ hi := by
  unfold meanQ
  cases l with
  | nil => simpa using hhi
  | cons a t =>
    have hsum : (a :: t).sum ≤ ((a :: t).length : ℚ) * hi := by
      have := List.sum_le_card_nsmul (a :: t) hi h
      simpa [nsmul_eq_mul] using this
    have hlen : (0 : ℚ) < ((a :: t).length : ℚ) := by
      push_cast [List.length_cons]
      positivity
    rw [div_le_iff₀ hlen]
    linarith [hsum]

/-- Population variance is nonnegative. -/
theorem varQ_nonneg (l : List ℚ) : 0 ≤ varQ l := by
  unfold varQ
  exact meanQ_nonneg (by
    intro x hx
    rcases List.mem_map.mp hx with ⟨y, -, rfl⟩
    positivity)

/-- The blink-rate sub-signal always lies in [0,1]. -/
theorem blinkRateSignal_bounds (b : ℚ) :
    0 ≤ blinkRateSignal b ∧ blinkRateSignal b ≤ 1 := by
  unfold blinkRateSignal BLINK_RATE_LOW BLINK_RATE_HIGH
  split
  · norm_num
  · split
    · norm_num
    · rename_i h1 h2
      constructor
      · apply div_nonneg <;> linarith
      · rw [div_le_one (by norm_num)]
        linarith

/-- The confusion score lies in [0,100] whenever the three passthrough
inputs are nonnegative. -/
theorem confusionCompute_bounds {b hv gl mm : ℚ}
    (hhv : 0 ≤ hv) (hgl : 0 ≤ gl) (hmm : 0 ≤ mm) :
    0 ≤ confusionCompute b hv gl mm ∧ confusionCompute b hv gl mm ≤ 100 := by
  obtain ⟨hb0, hb1⟩ := blinkRateSignal_bounds b
  have hhv' : 0 ≤ headVarianceSignal hv ∧ headVarianceSignal hv ≤ 1 :=
    ⟨le_min hhv one_pos.le, min_le_right _ _⟩
  have hgl' : 0 ≤ gazeLossSignal gl ∧ gazeLossSignal gl ≤ 1 :=
    ⟨le_min hgl one_pos.le, min_le_right _ _⟩
  have hmm' : 0 ≤ microMovementSignal mm ∧ microMovementSignal mm ≤ 1 :=
    ⟨le_min hmm one_pos.le, min_le_right _ _⟩
  unfold confusionCompute
  constructor
  · apply round1_nonneg
    have : (0 : ℚ) ≤ (W_BLINK_RATE * blinkRateSignal b +
        W_HEAD_VARIANCE * headVarianceSignal hv +
        W_GAZE_REDUCTION * gazeLossSignal gl +
        W_MICRO_MOVEMENT * microMovementSignal mm) * 100 := by
      unfold W_BLINK_RATE W_HEAD_VARIANCE W_GAZE_REDUCTION W_MICRO_MOVEMENT
      nlinarith [hhv'.1, hgl'.1, hmm'.1]
    exact le_min this (by norm_num)
  · exact round1_le_hundred (min_le_right _ _)

/-- The micro-movement sub-signal lies in [0,1]. -/
theorem microVar_bounds (a b : List ℚ) :
    0 ≤ microVar a b ∧ microVar a b ≤ 1 := by
  unfold microVar
  split
  · constructor
    · refine le_min ?_ one_pos.le
      have := varQ_nonneg a
      have := varQ_nonneg b
      unfold MICRO_MOVE_HIGH
      positivity
    · exact min_le_right _ _
  · norm_num

/-- The head-pose angle variance lies in [0,1] after any update. -/
theorem headUpdate_variance_bounds (s : HeadPoseDetector) (angle : ℚ) :
    0 ≤ (s.update angle).angleVariance ∧ (s.update angle).angleVariance ≤ 1 := by
  show 0 ≤ min _ 1 ∧ min _ 1 ≤ 1
  constructor
  · refine le_min ?_ one_pos.le
    split
    · have := varQ_nonneg (pushCap CONFUSION_WINDOW s.varHistory angle)
      positivity
    · norm_num
  · exact min_le_right _ _

/-- Eye-contact update: the 0/1 contact buffer stays in [0,1] and so does
the published contact ratio. -/
theorem gazeUpdate_bounds (s : EyeContactDetector) (dev : ℚ)
    (hh : ∀ x ∈ s.contactHistory, 0 ≤ x ∧ x ≤ 1) :
    (∀ x ∈ (s.update dev).contactHistory, 0 ≤ x ∧ x ≤ 1) ∧
    0 ≤ (s.update dev).contactRatio ∧ (s.update dev).contactRatio ≤ 1 := by
  have hmem : ∀ x ∈ (s.update dev).contactHistory, 0 ≤ x ∧ x ≤ 1 := by
    intro x hx
    rcases mem_pushCap hx with h' | h'
    · exact hh x h'
    · subst h'
      split <;> norm_num
  refine ⟨hmem, meanQ_nonneg (fun x hx => (hmem x hx).1),
    meanQ_le one_pos.le (fun x hx => (hmem x hx).2)⟩

/-- Engagement update: raw score, buffer and published score stay in
[0,100]. -/
theorem engagementCompute_bounds (s : EngagementScorer)
    (o st c conf : ℚ)
    (hh : ∀ x ∈ s.scoreHistory, 0 ≤ x ∧ x ≤ 100) :
    (0 ≤ (s.compute o st c conf).rawScore ∧ (s.compute o st c conf).rawScore ≤ 100) ∧
    (∀ x ∈ (s.compute o st c conf).scoreHistory, 0 ≤ x ∧ x ≤ 100) ∧
    (0 ≤ (s.compute o st c conf).score ∧ (s.compute o st c conf).score ≤ 100) := by
  have hraw : 0 ≤ (s.compute o st c conf).rawScore ∧
      (s.compute o st c conf).rawScore ≤ 100 := by
    rw [compute_rawScore]
    constructor
    · exact round1_nonneg (by positivity)
    · refine round1_le_hundred ?_
      have h1 : max 0 (min (W_EYE_OPENNESS * o + W_HEAD_STABILITY * st +
          W_EYE_CONTACT * c - W_CONFUSION_PENALTY * (conf / 100)) 1) ≤ 1 :=
        max_le one_pos.le (min_le_right _ _)
      linarith
  have hmem : ∀ x ∈ (s.compute o st c conf).scoreHistory, 0 ≤ x ∧ x ≤ 100 := by
    rw [compute_scoreHistory]
    intro x hx
    rcases mem_pushCap hx with h' | h'
    · exact hh x h'
    · subst h'
      exact hraw
  refine ⟨hraw, hmem, ?_, ?_⟩
  · rw [compute_score]
    exact round1_nonneg (meanQ_nonneg (fun x hx => (hmem x hx).1))
  · rw [compute_score]
    exact round1_le_hundred (meanQ_le (by norm_num) (fun x hx => (hmem x hx).2))

/-- One processed frame preserves the pipeline range invariant, provided a
detected face carries nonnegative EAR inputs. -/
theorem processFrame_preserves_inv (s : PipelineState) (t1 t2 : ℚ)
    (f : Option FaceData) (hs : PipeInv s)
    (hf : ∀ fd, f = some fd → FaceOk fd) :
    PipeInv (processFrame s t1 t2 f).1 := by
  obtain ⟨hear, hhead, hgazeH, hgazeR, hengH, hengS, hengR, hconf⟩ := hs
  cases f with
  | none => exact ⟨hear, hhead, hgazeH, hgazeR, hengH, hengS, hengR, hconf⟩
  | some fd =>
    obtain ⟨hl, hr⟩ := hf fd rfl
    have hearAvg : 0 ≤ ((s.ear.update fd.earLeft fd.earRight)).earAvg := by
      show 0 ≤ (fd.earLeft + fd.earRight) / 2
      positivity
    have hheadv := headUpdate_variance_bounds s.head fd.angle
    have hgaze := gazeUpdate_bounds s.gaze fd.deviation hgazeH
    have hmicro := microVar_bounds (pushCap CONFUSION_WINDOW s.noseXHistory fd.noseX)
      (pushCap CONFUSION_WINDOW s.noseYHistory fd.noseY)
    have hconf' := confusionCompute_bounds (b := (s.ear.update fd.earLeft fd.earRight).blinksPerMinute)
      hheadv.1 (by
        show (0 : ℚ) ≤ 1 - (s.gaze.update fd.deviation).contactRatio
        linarith [hgaze.2.2]) hmicro.1
    have heng := engagementCompute_bounds s.engagement
      ((s.ear.update fd.earLeft fd.earRight).normalisedEar)
      ((s.head.update fd.angle).normalisedStability)
      ((s.gaze.update fd.deviation).contactRatio)
      (confusionCompute (s.ear.update fd.earLeft fd.earRight).blinksPerMinute
        (s.head.update fd.angle).angleVariance
        (s.gaze.update fd.deviation).gazeLossScore
        (microVar (pushCap CONFUSION_WINDOW s.noseXHistory fd.noseX)
          (pushCap CONFUSION_WINDOW s.noseYHistory fd.noseY)))
      hengH
    exact ⟨hearAvg, hheadv, hgaze.1, hgaze.2, heng.2.1, heng.2.2, heng.1, hconf'⟩

/-- The range invariant holds along any pipeline run. -/
theorem runPipeline_inv (l : List ((ℚ × ℚ) × Option FaceData)) :
    ∀ s : PipelineState, PipeInv s →
      (∀ p ∈ l, ∀ fd, p.2 = some fd → FaceOk fd) →
      PipeInv (runPipeline s l).1 := by
  induction l with
  | nil => intro s hs _; exact hs
  | cons p t ih =>
    intro s hs hl
    show PipeInv (runPipeline (processFrame s p.1.1 p.1.2 p.2).1 t).1
    refine ih (processFrame s p.1.1 p.1.2 p.2).1
      (processFrame_preserves_inv s p.1.1 p.1.2 p.2 hs
        (fun fd hfd => hl p (List.mem_cons_self p t) fd hfd)) ?_
    intro q hq fd hfd
    exact hl q (List.mem_cons_of_mem p hq) fd hfd

/-- The freshly constructed pipeline satisfies the range invariant. -/
theorem pipeInv_init : PipeInv PipelineState.init := by
  unfold PipeInv PipelineState.init EARDetector.init HeadPoseDetector.init
    EyeContactDetector.init GestureDetector.init EngagementScorer.init
  norm_num

/-- C5: after any sequence of processed frames (each detected face
carrying the nonnegative EAR values the geometry kernel produces), every
published normalized sub-signal — normalised eye-openness, angle
variance, head stability, contact ratio, gaze loss, micro-movement — lies
in [0,1], and the published confusion and engagement scores lie in
[0,100].  Quantifying over all input sequences covers every frame of
every run. -/
theorem C5_published_signals_in_range (l : List ((ℚ × ℚ) × Option FaceData))
    (hl : ∀ p ∈ l, ∀ fd, p.2 = some fd → FaceOk fd) :
    (0 ≤ (runPipeline PipelineState.init l).1.ear.normalisedEar ∧
      (runPipeline PipelineState.init l).1.ear.normalisedEar ≤ 1) ∧
    (0 ≤ (runPipeline PipelineState.init l).1.head.angleVariance ∧
      (runPipeline PipelineState.init l).1.head.angleVariance ≤ 1) ∧
    (0 ≤ (runPipeline PipelineState.init l).1.head.normalisedStability ∧
      (runPipeline PipelineState.init l).1.head.normalisedStability ≤ 1) ∧
    (0 ≤ (runPipeline PipelineState.init l).1.gaze.contactRatio ∧
      (runPipeline PipelineState.init l).1.gaze.contactRatio ≤ 1) ∧
    (0 ≤ (runPipeline PipelineState.init l).1.gaze.gazeLossScore ∧
      (runPipeline PipelineState.init l).1.gaze.gazeLossScore ≤ 1) ∧
    (0 ≤ microVar (runPipeline PipelineState.init l).1.noseXHistory
        (runPipeline PipelineState.init l).1.noseYHistory ∧
      microVar (runPipeline PipelineState.init l).1.noseXHistory
        (runPipeline PipelineState.init l).1.noseYHistory ≤ 1) ∧
    (0 ≤ (runPipeline PipelineState.init l).1.confusionScore ∧
      (runPipeline PipelineState.init l).1.confusionScore ≤ 100) ∧
    (0 ≤ (runPipeline PipelineState.init l).1.engagement.score ∧
      (runPipeline PipelineState.init l).1.engagement.score ≤ 100) := by
  obtain ⟨hear, hhead, hgazeH, hgazeR, hengH, hengS, hengR, hconf⟩ :=
    runPipeline_inv l PipelineState.init pipeInv_init hl
  refine ⟨⟨le_min (by positivity) one_pos.le, min_le_right _ _⟩, hhead,
    ⟨by show (0:ℚ) ≤ 1 - _; linarith [hhead.2], by
        show (1:ℚ) - _ ≤ 1; linarith [hhead.1]⟩,
    hgazeR,
    ⟨by show (0:ℚ) ≤ 1 - _; linarith [hgazeR.2], by
        show (1:ℚ) - _ ≤ 1; linarith [hgazeR.1]⟩,
    microVar_bounds _ _, hconf, hengS⟩

/-- Witness for C5: a one-frame run with a concrete detected face. -/
theorem C5_published_signals_in_range_witness :
    (∀ p ∈ [(((0 : ℚ), (0 : ℚ)),
        some (⟨0.25, 0.25, 3, 0.01, 0.5, 0.5⟩ : FaceData))],
      ∀ fd, p.2 = some fd → FaceOk fd) ∧
    (0 ≤ (runPipeline PipelineState.init [(((0 : ℚ), (0 : ℚ)),
        some (⟨0.25, 0.25, 3, 0.01, 0.5, 0.5⟩ : FaceData))]).1.confusionScore ∧
      (runPipeline PipelineState.init [(((0 : ℚ), (0 : ℚ)),
        some (⟨0.25, 0.25, 3, 0.01, 0.5, 0.5⟩ : FaceData))]).1.confusionScore ≤ 100) := by
  have hl : ∀ p ∈ [(((0 : ℚ), (0 : ℚ)),
      some (⟨0.25, 0.25, 3, 0.01, 0.5, 0.5⟩ : FaceData))],
      ∀ fd, p.2 = some fd → FaceOk fd := by
    intro p hp fd hfd
    simp only [List.mem_singleton] at hp
    subst hp
    cases hfd
    exact ⟨by norm_num, by norm_num⟩
  exact ⟨hl, (C5_published_signals_in_range _ hl).2.2.2.2.2.2.1⟩

/-- Unfolding lemma: the blink counter after one update. -/
theorem update_blinkCounter (s : EARDetector) (l r : ℚ) :
    (s.update l r).blinkCounter =
      if meanQ (pushCap SMOOTHING_WINDOW s.earHistory ((l + r) / 2)) < EAR_THRESHOLD
      then s.blinkCounter + 1 else 0 := rfl

/-- Unfolding lemma: the cumulative blink total after one update. -/
theorem update_totalBlinks (s : EARDetector) (l r : ℚ) :
    (s.update l r).totalBlinks =
      if ¬ meanQ (pushCap SMOOTHING_WINDOW s.earHistory ((l + r) / 2)) < EAR_THRESHOLD ∧
          EAR_CONSEC_FRAMES ≤ s.blinkCounter
      then s.totalBlinks + 1 else s.totalBlinks := rfl

/-- Splitting a run of the EAR detector at a list append. -/
theorem runEAR_append (s : EARDetector) (l1 l2 : List ℚ) :
    runEAR s (l1 ++ l2) = runEAR (runEAR s l1) l2 :=
  List.foldl_append _ _ _ _

/-- A constant EAR signal below the blink threshold advances the closed
counter every frame and records no blink. -/
theorem runEAR_const_lowEAR (a : ℚ) (ha : a < EAR_THRESHOLD) (j : ℕ) :
    (runEAR EARDetector.init (List.replicate j a)).earHistory =
      List.replicate (min j SMOOTHING_WINDOW) a ∧
    (runEAR EARDetector.init (List.replicate j a)).blinkCounter = j ∧
    (runEAR EARDetector.init (List.replicate j a)).totalBlinks = 0 := by
  induction j with
  | zero => exact ⟨rfl, rfl, rfl⟩
  | succ n ih =>
    rw [runEAR_replicate_succ]
    have havg : (a + a) / 2 = a := by ring
    have hmean : meanQ (pushCap SMOOTHING_WINDOW
        (runEAR EARDetector.init (List.replicate n a)).earHistory ((a + a) / 2)) = a := by
      rw [havg, ih.1, pushCap_replicate_self,
          meanQ_replicate _ (by unfold SMOOTHING_WINDOW; omega)]
    refine ⟨?_, ?_, ?_⟩
    · rw [update_earHistory, ih.1, havg, pushCap_replicate_self]
      congr 1
      unfold SMOOTHING_WINDOW
      omega
    · rw [update_blinkCounter, hmean, if_pos ha, ih.2.1]
    · rw [update_totalBlinks, hmean, if_neg (by
        rintro ⟨hcon, -⟩
        exact hcon ha), ih.2.2]

/-- The mean of `p` copies of `a` followed by `q` copies of `b`. -/
theorem meanQ_shape (a b : ℚ) (p q : ℕ) :
    meanQ (List.replicate p a ++ List.replicate q b) =
      ((p : ℚ) * a + (q : ℚ) * b) / ((p : ℚ) + (q : ℚ)) := by
  unfold meanQ
  rw [List.sum_append, List.sum_replicate, List.sum_replicate, List.length_append,
      List.length_replicate, List.length_replicate, nsmul_eq_mul, nsmul_eq_mul]
  push_cast
  rfl

/-- Pushing onto a two-block buffer with room left grows the second
block. -/
theorem pushCap_shape_grow (a b : ℚ) (p q : ℕ) (h : p + q + 1 ≤ SMOOTHING_WINDOW) :
    pushCap SMOOTHING_WINDOW (List.replicate p a ++ List.replicate q b) b =
      List.replicate p a ++ List.replicate (q + 1) b := by
  simp only [pushCap, List.append_assoc]
  rw [show List.replicate q b ++ [b] = List.replicate (q + 1) b by
        simpa using (List.replicate_succ' q b).symm]
  rw [if_neg (by simp only [List.length_append, List.length_replicate]; omega)]

/-- Pushing onto a full two-block buffer evicts the oldest `a`. -/
theorem pushCap_shape_slide (a b : ℚ) (p₀ q : ℕ)
    (h : p₀ + 1 + q = SMOOTHING_WINDOW) :
    pushCap SMOOTHING_WINDOW (List.replicate (p₀ + 1) a ++ List.replicate q b) b =
      List.replicate p₀ a ++ List.replicate (q + 1) b := by
  simp only [pushCap, List.append_assoc]
  rw [show List.replicate q b ++ [b] = List.replicate (q + 1) b by
        simpa using (List.replicate_succ' q b).symm]
  rw [if_pos (by simp only [List.length_append, List.length_replicate]; omega)]
  rw [show (List.replicate (p₀ + 1) a ++ List.replicate (q + 1) b).length -
        SMOOTHING_WINDOW = 1 by
      simp only [List.length_append, List.length_replicate]; omega]
  rw [List.replicate_succ]
  rfl

/-- Pushing onto a buffer already full of `b` keeps it full of `b`. -/
theorem pushCap_shape_full (b : ℚ) :
    pushCap SMOOTHING_WINDOW (List.replicate SMOOTHING_WINDOW b) b =
      List.replicate SMOOTHING_WINDOW b := by
  simp only [pushCap]
  rw [show List.replicate SMOOTHING_WINDOW b ++ [b] =
        List.replicate (SMOOTHING_WINDOW + 1) b by
      simpa using (List.replicate_succ' SMOOTHING_WINDOW b).symm]
  rw [if_pos (by simp only [List.length_replicate]; omega)]
  rw [List.drop_replicate]
  congr 1

/-- While feeding the constant value `b ≥ a`, the smoothing-buffer mean
never decreases (the buffer holds `a`-block then `b`-block). -/
theorem meanQ_shape_mono_grow (a b : ℚ) (hab : a ≤ b) (p q : ℕ) (h1 : 1 ≤ p + q) :
    meanQ (List.replicate p a ++ List.replicate q b) ≤
      meanQ (List.replicate p a ++ List.replicate (q + 1) b) := by
  rw [meanQ_shape, meanQ_shape]
  have hx : (0 : ℚ) ≤ (p : ℚ) := by positivity
  have hy : (0 : ℚ) ≤ (q : ℚ) := by positivity
  have hxy : (1 : ℚ) ≤ (p : ℚ) + (q : ℚ) := by exact_mod_cast h1
  rw [div_le_div_iff (by linarith) (by push_cast; linarith)]
  push_cast
  nlinarith [mul_nonneg hx (sub_nonneg.mpr hab), mul_nonneg hy (sub_nonneg.mpr hab)]

/-- Evicting an `a` for a `b` from a full buffer does not decrease the
mean. -/
theorem meanQ_shape_mono_slide (a b : ℚ) (hab : a ≤ b) (p₀ q : ℕ) :
    meanQ (List.replicate (p₀ + 1) a ++ List.replicate q b) ≤
      meanQ (List.replicate p₀ a ++ List.replicate (q + 1) b) := by
  rw [meanQ_shape, meanQ_shape]
  have hden : ((p₀ : ℚ) + 1) + (q : ℚ) = (p₀ : ℚ) + ((q : ℚ) + 1) := by ring
  push_cast
  rw [hden]
  have hD : (0 : ℚ) < (p₀ : ℚ) + ((q : ℚ) + 1) := by positivity
  exact (div_le_div_right hD).mpr (by nlinarith)

/-- One `b`-frame of the blink boundary run: the buffer keeps its
two-block shape and the blink total is 1 exactly when the (nondecreasing)
smoothed EAR has reached the threshold, firing on the crossing frame. -/
theorem bstep (a b : ℚ)
    (s : EARDetector) (p q p' q' : ℕ)
    (hhist : s.earHistory = List.replicate p a ++ List.replicate q b)
    (hpush : pushCap SMOOTHING_WINDOW (List.replicate p a ++ List.replicate q b) b =
      List.replicate p' a ++ List.replicate q' b)
    (hmono : meanQ (List.replicate p a ++ List.replicate q b) ≤
      meanQ (List.replicate p' a ++ List.replicate q' b))
    (hcond : if EAR_THRESHOLD ≤ meanQ (List.replicate p a ++ List.replicate q b)
      then s.totalBlinks = 1 ∧ s.blinkCounter = 0
      else s.totalBlinks = 0 ∧ EAR_CONSEC_FRAMES ≤ s.blinkCounter) :
    (s.update b b).earHistory = List.replicate p' a ++ List.replicate q' b ∧
    (if EAR_THRESHOLD ≤ meanQ (List.replicate p' a ++ List.replicate q' b)
     then (s.update b b).totalBlinks = 1 ∧ (s.update b b).blinkCounter = 0
     else (s.update b b).totalBlinks = 0 ∧
       EAR_CONSEC_FRAMES ≤ (s.update b b).blinkCounter) := by
  have hbb : (b + b) / 2 = b := by ring
  have hH : (s.update b b).earHistory = List.replicate p' a ++ List.replicate q' b := by
    rw [update_earHistory, hbb, hhist, hpush]
  have hMean : meanQ (pushCap SMOOTHING_WINDOW s.earHistory ((b + b) / 2)) =
      meanQ (List.replicate p' a ++ List.replicate q' b) := by
    rw [hbb, hhist, hpush]
  refine ⟨hH, ?_⟩
  by_cases hm' : EAR_THRESHOLD ≤ meanQ (List.replicate p' a ++ List.replicate q' b)
  · rw [if_pos hm']
    have hcounter : (s.update b b).blinkCounter = 0 := by
      rw [update_blinkCounter, hMean, if_neg (not_lt.mpr hm')]
    refine ⟨?_, hcounter⟩
    rw [update_totalBlinks, hMean]
    by_cases hm : EAR_THRESHOLD ≤ meanQ (List.replicate p a ++ List.replicate q b)
    · rw [if_pos hm] at hcond
      rw [if_neg (by
        rintro ⟨-, hcnt⟩
        rw [hcond.2] at hcnt
        unfold EAR_CONSEC_FRAMES at hcnt
        omega)]
      exact hcond.1
    · rw [if_neg hm] at hcond
      rw [if_pos ⟨not_lt.mpr hm', hcond.2⟩, hcond.1]
  · rw [if_neg hm']
    have hm : ¬ EAR_THRESHOLD ≤ meanQ (List.replicate p a ++ List.replicate q b) :=
      fun hc => hm' (le_trans hc hmono)
    rw [if_neg hm] at hcond
    constructor
    · rw [update_totalBlinks, hMean,
        if_neg (by rintro ⟨hc, -⟩; exact hc (not_le.mp hm'))]
      exact hcond.1
    · rw [update_blinkCounter, hMean, if_pos (not_le.mp hm')]
      have := hcond.2
      unfold EAR_CONSEC_FRAMES at *
      omega

/-- The invariant of the blink boundary run: EAR held below threshold for
exactly `EAR_CONSEC_FRAMES` frames, then at `b ≥ EAR_THRESHOLD` for `k`
frames.  The buffer is an `a`-block then `b`-block with the `b`-block of
size `min k SMOOTHING_WINDOW`, and the blink total is 1 exactly when the
smoothed EAR has reached the threshold. -/
theorem C2_bphase (a b : ℚ) (ha : a < EAR_THRESHOLD) (hb : EAR_THRESHOLD ≤ b) :
    ∀ k : ℕ, ∃ p q : ℕ,
      1 ≤ p + q ∧ p + q ≤ SMOOTHING_WINDOW ∧ q = min k SMOOTHING_WINDOW ∧
      (runEAR EARDetector.init
        (List.replicate 3 a ++ List.replicate k b)).earHistory =
        List.replicate p a ++ List.replicate q b ∧
      (if EAR_THRESHOLD ≤ meanQ (List.replicate p a ++ List.replicate q b)
       then (runEAR EARDetector.init
              (List.replicate 3 a ++ List.replicate k b)).totalBlinks = 1 ∧
            (runEAR EARDetector.init
              (List.replicate 3 a ++ List.replicate k b)).blinkCounter = 0
       else (runEAR EARDetector.init
              (List.replicate 3 a ++ List.replicate k b)).totalBlinks = 0 ∧
            EAR_CONSEC_FRAMES ≤ (runEAR EARDetector.init
              (List.replicate 3 a ++ List.replicate k b)).blinkCounter) := by
  have hab : a ≤ b := le_of_lt (lt_of_lt_of_le ha hb)
  intro k
  induction k with
  | zero =>
    refine ⟨3, 0, by omega, by unfold SMOOTHING_WINDOW; omega, by simp, ?_, ?_⟩
    · simp only [List.replicate_zero, List.append_nil]
      exact (runEAR_const_lowEAR a ha 3).1
    · simp only [List.replicate_zero, List.append_nil]
      rw [if_neg (by
        rw [meanQ_replicate _ (by omega)]
        exact not_le.mpr ha)]
      exact ⟨(runEAR_const_lowEAR a ha 3).2.2, by
        rw [(runEAR_const_lowEAR a ha 3).2.1]
        unfold EAR_CONSEC_FRAMES
        omega⟩
  | succ n ih =>
    obtain ⟨p, q, hpq1, hpq10, hq, hhist, hcond⟩ := ih
    have hsplit : List.replicate 3 a ++ List.replicate (n + 1) b =
        (List.replicate 3 a ++ List.replicate n b) ++ [b] := by
      rw [List.replicate_succ' n b, List.append_assoc]
    have hrun : runEAR EARDetector.init
        (List.replicate 3 a ++ List.replicate (n + 1) b) =
        (runEAR EARDetector.init
          (List.replicate 3 a ++ List.replicate n b)).update b b := by
      rw [hsplit, runEAR_append]
      rfl
    rcases lt_or_eq_of_le hpq10 with hlt | heq
    · -- room left in the buffer: the b-block grows
      have hpush := pushCap_shape_grow a b p q (by omega)
      have hmono := meanQ_shape_mono_grow a b hab p q hpq1
      have hstep := bstep a b _ p q p (q + 1) hhist hpush hmono hcond
      refine ⟨p, q + 1, by omega, by omega, by
        unfold SMOOTHING_WINDOW at *
        omega, ?_, ?_⟩
      · rw [hrun]
        exact hstep.1
      · rw [hrun]
        exact hstep.2
    · -- buffer full
      cases p with
      | zero =>
        -- all-b buffer stays all-b
        have hq10 : q = SMOOTHING_WINDOW := by omega
        subst hq10
        have hpush : pushCap SMOOTHING_WINDOW
            (List.replicate 0 a ++ List.replicate SMOOTHING_WINDOW b) b =
            List.replicate 0 a ++ List.replicate SMOOTHING_WINDOW b := by
          simpa using pushCap_shape_full b
        have hstep := bstep a b _ 0 SMOOTHING_WINDOW 0 SMOOTHING_WINDOW hhist hpush
          (le_refl _) hcond
        refine ⟨0, SMOOTHING_WINDOW, by omega, by omega, by
          unfold SMOOTHING_WINDOW at *
          omega, ?_, ?_⟩
        · rw [hrun]
          exact hstep.1
        · rw [hrun]
          exact hstep.2
      | succ p₀ =>
        have hpush := pushCap_shape_slide a b p₀ q (by omega)
        have hmono := meanQ_shape_mono_slide a b hab p₀ q
        have hstep := bstep a b _ (p₀ + 1) q p₀ (q + 1) hhist hpush hmono hcond
        refine ⟨p₀, q + 1, by omega, by omega, by
          unfold SMOOTHING_WINDOW at *
          omega, ?_, ?_⟩
        · rw [hrun]
          exact hstep.1
        · rw [hrun]
          exact hstep.2

/-- C2: from a freshly reset EAR detector, holding the per-frame EAR
average below `EAR_THRESHOLD` for exactly `EAR_CONSEC_FRAMES - 1 = 2`
frames and then one frame at any value records no blink; holding it below
for exactly `EAR_CONSEC_FRAMES = 3` frames and then at a value at or
above the threshold records exactly one blink, counted on the frame the
smoothed (buffer-mean) EAR first rises to the threshold — the total is 1
iff the current smoothed EAR has reached `EAR_THRESHOLD`, and once the
smoothing buffer has filled with the raised value the total is exactly
1. -/
theorem C2_blink_boundary (a b : ℚ) (ha : a < EAR_THRESHOLD)
    (hb : EAR_THRESHOLD ≤ b) :
    (∀ b' : ℚ, (runEAR EARDetector.init [a, a, b']).totalBlinks = 0) ∧
    ∀ j : ℕ,
      ((runEAR EARDetector.init
          (List.replicate 3 a ++ List.replicate j b)).totalBlinks = 1 ↔
        EAR_THRESHOLD ≤ meanQ ((runEAR EARDetector.init
          (List.replicate 3 a ++ List.replicate j b)).earHistory)) ∧
      (SMOOTHING_WINDOW ≤ j →
        (runEAR EARDetector.init
          (List.replicate 3 a ++ List.replicate j b)).totalBlinks = 1) := by
  constructor
  · intro b'
    have hsplit : [a, a, b'] = List.replicate 2 a ++ [b'] := rfl
    rw [hsplit, runEAR_append]
    show ((runEAR EARDetector.init (List.replicate 2 a)).update b' b').totalBlinks = 0
    rw [update_totalBlinks, if_neg (by
      rintro ⟨-, hcnt⟩
      rw [(runEAR_const_lowEAR a ha 2).2.1] at hcnt
      unfold EAR_CONSEC_FRAMES at hcnt
      omega)]
    exact (runEAR_const_lowEAR a ha 2).2.2
  · intro j
    obtain ⟨p, q, hpq1, hpq10, hq, hhist, hcond⟩ := C2_bphase a b ha hb j
    constructor
    · rw [hhist]
      by_cases hm : EAR_THRESHOLD ≤ meanQ (List.replicate p a ++ List.replicate q b)
      · rw [if_pos hm] at hcond
        exact ⟨fun _ => hm, fun _ => hcond.1⟩
      · rw [if_neg hm] at hcond
        constructor
        · intro h1
          rw [hcond.1] at h1
          exact absurd h1 (by omega)
        · intro hm'
          exact absurd hm' hm
    · intro hj
      have hq10 : q = SMOOTHING_WINDOW := by
        unfold SMOOTHING_WINDOW at *
        omega
      have hp0 : p = 0 := by
        unfold SMOOTHING_WINDOW at *
        omega
      subst hq10
      subst hp0
      have hmean : meanQ (List.replicate 0 a ++ List.replicate SMOOTHING_WINDOW b) = b := by
        simp only [List.replicate_zero, List.nil_append]
        exact meanQ_replicate b (by unfold SMOOTHING_WINDOW; omega)
      rw [hmean, if_pos hb] at hcond
      exact hcond.1

/-- Witness for C2: a signal of 0.1 for two frames then 0.25 records no
blink; 0.1 for three frames then 0.25 until the buffer fills records
exactly one. -/
theorem C2_blink_boundary_witness :
    (0.1 : ℚ) < EAR_THRESHOLD ∧ EAR_THRESHOLD ≤ (0.25 : ℚ) ∧
    (runEAR EARDetector.init [0.1, 0.1, 0.25]).totalBlinks = 0 ∧
    (runEAR EARDetector.init
      (List.replicate 3 (0.1 : ℚ) ++ List.replicate 10 (0.25 : ℚ))).totalBlinks = 1 := by
  have h1 : (0.1 : ℚ) < EAR_THRESHOLD := by norm_num [EAR_THRESHOLD]
  have h2 : EAR_THRESHOLD ≤ (0.25 : ℚ) := by norm_num [EAR_THRESHOLD]
  have hthm := C2_blink_boundary 0.1 0.25 h1 h2
  exact ⟨h1, h2, hthm.1 0.25, (hthm.2 10).2 (by unfold SMOOTHING_WINDOW; omega)⟩

end EdgeLite
